import Mathlib

/-!
Verification of the incremental 3D Delaunay / regular (weighted) triangulation
engine of `src/3rdparty/geogram/delaunay/delaunay_3d.cpp` (class
`GEO::Delaunay3d`).  The combinatorial mesh is a shallow embedding: the
parallel stores `cell_to_v_store_` / `cell_to_cell_store_` / `cell_next_`
become Lean `Array`s, machine `double`s become exact rationals (the exact
predicate layer computes the true sign of the orientation determinant, so
over `ℚ` the predicates are the sign of the corresponding determinant), and
the accessors of the missing companion header `delaunay_3d.h` are modelled
from the spec where noted.
-/

namespace Delaunay3d

attribute [local semireducible] Rat.add Rat.sub Rat.mul

/-- Geogram's three-valued `Sign` (`NEGATIVE` / `ZERO` / `POSITIVE`). -/
inductive Sign where
  | negative
  | zero
  | positive
  deriving DecidableEq, Repr

/-- A 3d point with exact rational coordinates (model of three `double`s). -/
structure Pt3 where
  x : ℚ
  y : ℚ
  z : ℚ
  deriving DecidableEq, Repr

/-- `geo_sqr` of `geogram/basic`. -/
def geo_sqr (a : ℚ) : ℚ := a * a

/-- `det3x3` of `geogram/basic/matrix.h`: determinant of a 3x3 matrix. -/
def det3x3 (a11 a12 a13 a21 a22 a23 a31 a32 a33 : ℚ) : ℚ :=
  a11 * (a22 * a33 - a23 * a32)
    - a12 * (a21 * a33 - a23 * a31)
    + a13 * (a21 * a32 - a22 * a31)

/-- `geo_sgn`: the sign of a rational number as a `Sign`. -/
def geo_sgn (d : ℚ) : Sign :=
  if d < 0 then .negative else if d = 0 then .zero else .positive

/-- Modelled from the spec: `PCK::orient_3d` of the external exact predicate
layer, "returning POSITIVE/NEGATIVE/ZERO with correct sign even under
floating-point cancellation", i.e. the exact sign of the signed volume of the
tetrahedron `p0 p1 p2 p3`.  Over `ℚ` this is the sign of the same 3x3
determinant that `orient_3d_inexact` (lines 121-144 of the source) computes. -/
def orient_3d (p0 p1 p2 p3 : Pt3) : Sign :=
  geo_sgn (det3x3
    (p1.x - p0.x) (p1.y - p0.y) (p1.z - p0.z)
    (p2.x - p0.x) (p2.y - p0.y) (p2.z - p0.z)
    (p3.x - p0.x) (p3.y - p0.y) (p3.z - p0.z))

/-- `orient_3d_inexact` (lines 121-144): the fast floating-point variant of
the orientation predicate.  Over exact rationals the very same determinant is
computed, so the model coincides with `orient_3d`; it is kept as its own
definition because `locate_inexact` calls this one. -/
def orient_3d_inexact (p0 p1 p2 p3 : Pt3) : Sign :=
  geo_sgn (det3x3
    (p1.x - p0.x) (p1.y - p0.y) (p1.z - p0.z)
    (p2.x - p0.x) (p2.y - p0.y) (p2.z - p0.z)
    (p3.x - p0.x) (p3.y - p0.y) (p3.z - p0.z))

/-- `points_are_identical` (lines 69-78): exact coordinate-wise equality. -/
def points_are_identical (p1 p2 : Pt3) : Bool :=
  p1.x == p2.x && p1.y == p2.y && p1.z == p2.z

/-- `points_are_colinear` (lines 88-105): colinearity tested by four
coplanarity tests against the four non-coplanar reference points
`(0,0,0)`, `(0,0,1)`, `(0,1,0)`, `(1,0,0)`. -/
def points_are_colinear (p1 p2 p3 : Pt3) : Bool :=
  orient_3d p1 p2 p3 ⟨0, 0, 0⟩ == .zero &&
  orient_3d p1 p2 p3 ⟨0, 0, 1⟩ == .zero &&
  orient_3d p1 p2 p3 ⟨0, 1, 0⟩ == .zero &&
  orient_3d p1 p2 p3 ⟨1, 0, 0⟩ == .zero

/-- `Delaunay3d::halfedge_facet_` (lines 149-154): for two local facet
indices, a local vertex incident to both facets (`4` on the diagonal means
"none"). -/
def halfedge_facet_ (f1 f2 : ℕ) : ℕ :=
  (([[4, 2, 3, 1],
     [3, 4, 0, 2],
     [1, 3, 4, 0],
     [2, 0, 1, 4]].getD f1 []).getD f2 4)

/-- `Delaunay3d::tet_facet_vertex_` (lines 165-170): for a local vertex `lv`,
the ordered triple of the other three local vertices, such that
`(lv, row[0], row[1], row[2])` has the same orientation as `(0,1,2,3)`. -/
def tet_facet_vertex_ (lv i : ℕ) : ℕ :=
  (([[1, 2, 3],
     [0, 3, 2],
     [3, 0, 1],
     [1, 0, 2]].getD lv []).getD i 4)

/-- Modelled from the spec: accessor `tet_facet_vertex(f, v)` of the missing
header `delaunay_3d.h`, reading the `tet_facet_vertex_` table (used by
`create_first_tetrahedron` and `show_tet`). -/
def tet_facet_vertex (f v : ℕ) : ℕ := tet_facet_vertex_ f v

/-- The free-list / conflict-list pointer stored per cell in `cell_next_`.
Modelled from the spec: a cell is "not in any list", or chained with either a
successor cell or an end-of-list sentinel (`END_OF_LIST`). -/
inductive NextPtr where
  | notInList
  | endOfList
  | cell (t : ℕ)
  deriving DecidableEq, Repr

/-- The mutable state of `Delaunay3d`: the vertex store (flat coordinate
buffer, read-only), the tetrahedron store (parallel arrays of 4 signed vertex
indices and 4 signed neighbor indices per cell), the free/conflict list
field, the per-cell mark stamps, and the finalized output arrays that
`set_arrays` publishes to the base class. -/
structure Mesh where
  nb_vertices : ℕ
  /-- The flat input coordinate buffer (3 or 4 `double`s per point). -/
  verts : ℕ → ℚ
  weighted : Bool
  keep_infinite : Bool
  heights_ : Array ℚ
  cell_to_v_store_ : Array Int
  cell_to_cell_store_ : Array Int
  cell_next_ : Array NextPtr
  first_free_ : NextPtr
  cur_stamp_ : ℕ
  /-- Modelled from the spec: the per-cell mark stamp compared against
  `cur_stamp_` ("visited during this insertion's flood fill"). -/
  marks : Array (Option ℕ)
  /-- Finalized cell count exposed by `set_arrays`. -/
  out_ncells : ℕ
  out_cellV : Array Int
  out_cellAdj : Array Int
  nb_finite_cells_ : ℕ

/-- `vertex_ptr(i)`: the 3d point of vertex `i` (stride 3, or 4 in weighted
mode where the 4th input component is the weight term). -/
def Mesh.vertex (M : Mesh) (i : ℕ) : Pt3 :=
  let d : ℕ := if M.weighted then 4 else 3
  ⟨M.verts (d * i), M.verts (d * i + 1), M.verts (d * i + 2)⟩

/-- `max_t()`: the number of cell records in the store (free ones included). -/
def max_t (M : Mesh) : ℕ := M.cell_next_.size

/-- Modelled from the spec: `tet_vertex(t, lv)` of the missing header, the
signed vertex index in slot `lv` of cell `t` (`-1` = `VERTEX_AT_INFINITY`). -/
def tet_vertex (M : Mesh) (t lv : ℕ) : Int :=
  M.cell_to_v_store_.getD (4 * t + lv) (-1)

/-- Modelled from the spec: `tet_adjacent(t, lf)` of the missing header, the
signed neighbor index across facet `lf` (`-1` = no neighbor). -/
def tet_adjacent (M : Mesh) (t lf : ℕ) : Int :=
  M.cell_to_cell_store_.getD (4 * t + lf) (-1)

/-- Modelled from the spec: `set_tet_vertex`. -/
def set_tet_vertex (M : Mesh) (t lv : ℕ) (v : Int) : Mesh :=
  { M with cell_to_v_store_ := M.cell_to_v_store_.setD (4 * t + lv) v }

/-- Modelled from the spec: `set_tet_adjacent`. -/
def set_tet_adjacent (M : Mesh) (t lf : ℕ) (t2 : ℕ) : Mesh :=
  { M with cell_to_cell_store_ := M.cell_to_cell_store_.setD (4 * t + lf) (Int.ofNat t2) }

/-- Modelled from the spec: `tet_is_in_list(t)` — the cell is chained in the
free list or in the current conflict list (both reuse `cell_next_`). -/
def tet_is_in_list (M : Mesh) (t : ℕ) : Bool :=
  M.cell_next_.getD t .notInList != .notInList

/-- Modelled from the spec: `tet_is_free(t)` — a recycled cell; free cells
live on the free list, so this is list membership. -/
def tet_is_free (M : Mesh) (t : ℕ) : Bool := tet_is_in_list M t

/-- `tet_next(t)`: the successor of `t` in the list it is chained in. -/
def tet_next (M : Mesh) (t : ℕ) : NextPtr := M.cell_next_.getD t .notInList

/-- Modelled from the spec: `tet_is_virtual(t)` — "any vertex == infinity". -/
def tet_is_virtual (M : Mesh) (t : ℕ) : Bool :=
  tet_vertex M t 0 == -1 || tet_vertex M t 1 == -1 ||
  tet_vertex M t 2 == -1 || tet_vertex M t 3 == -1

/-- Modelled from the spec: `tet_is_finite(t)` — complement of virtual. -/
def tet_is_finite (M : Mesh) (t : ℕ) : Bool := !tet_is_virtual M t

/-- Modelled from the spec: `tet_is_real(t)` — neither free nor virtual. -/
def tet_is_real (M : Mesh) (t : ℕ) : Bool :=
  !tet_is_free M t && tet_is_finite M t

/-- Modelled from the spec: `finite_tet_vertex(t, lv)` returns a real
coordinate-bearing vertex, substituting by the companion-facet convention
when the slot holds the infinite vertex.  The substitution convention lives
in the missing header; the walk of `locate` only evaluates predicates on real
cells, where this is just `tet_vertex`, so the fallback index is immaterial
to the properties proved below. -/
def finite_tet_vertex (M : Mesh) (t lv : ℕ) : ℕ :=
  let v := tet_vertex M t lv
  if 0 ≤ v then v.toNat else 0

/-- Modelled from the spec: `set_tet_mark_stamp(v)` — "generate a unique
stamp from current vertex index, used for marking tetrahedra"; each vertex is
inserted once, so taking the vertex index itself keeps stamps unique. -/
def set_tet_mark_stamp (M : Mesh) (v : ℕ) : Mesh :=
  { M with cur_stamp_ := v }

/-- Modelled from the spec: `mark_tet(t)` — record the current stamp. -/
def mark_tet (M : Mesh) (t : ℕ) : Mesh :=
  { M with marks := M.marks.setD t (some M.cur_stamp_) }

/-- Modelled from the spec: `tet_is_marked(t)` — visited during this
insertion's flood fill. -/
def tet_is_marked (M : Mesh) (t : ℕ) : Bool :=
  M.marks.getD t none == some M.cur_stamp_

/-- Modelled from the spec: `new_tetrahedron(v0,v1,v2,v3)` — allocate a cell
from the free list or append one, set its vertex slots, and reset its four
neighbor slots to `-1` (unset; `stellate_conflict_zone` tests
`tet_adjacent(new_t, new_f) != -1` to skip already-linked facets). -/
def new_tetrahedron (M : Mesh) (v0 v1 v2 v3 : Int) : ℕ × Mesh :=
  match M.first_free_ with
  | .cell r =>
      let M1 := { M with first_free_ := tet_next M r,
                         cell_next_ := M.cell_next_.setD r .notInList }
      let M2 := { M1 with cell_to_v_store_ :=
          ((((M1.cell_to_v_store_.setD (4 * r) v0).setD
              (4 * r + 1) v1).setD (4 * r + 2) v2).setD (4 * r + 3) v3) }
      let M3 := { M2 with cell_to_cell_store_ :=
          ((((M2.cell_to_cell_store_.setD (4 * r) (-1)).setD
              (4 * r + 1) (-1)).setD (4 * r + 2) (-1)).setD (4 * r + 3) (-1)) }
      (r, M3)
  | _ =>
      let t := M.cell_next_.size
      let M1 := { M with
        cell_to_v_store_ := (((M.cell_to_v_store_.push v0).push v1).push v2).push v3,
        cell_to_cell_store_ :=
          (((M.cell_to_cell_store_.push (-1)).push (-1)).push (-1)).push (-1),
        cell_next_ := M.cell_next_.push .notInList,
        marks := M.marks.push none }
      (t, M1)

/-- A quadruple of points: the `pv[4]` array of the point-location walks. -/
structure PtQuad where
  p0 : Pt3
  p1 : Pt3
  p2 : Pt3
  p3 : Pt3
  deriving DecidableEq, Repr

def PtQuad.get (q : PtQuad) (f : ℕ) : Pt3 :=
  match f with
  | 0 => q.p0
  | 1 => q.p1
  | 2 => q.p2
  | _ => q.p3

def PtQuad.set (q : PtQuad) (f : ℕ) (v : Pt3) : PtQuad :=
  match f with
  | 0 => { q with p0 := v }
  | 1 => { q with p1 := v }
  | 2 => { q with p2 := v }
  | _ => { q with p3 := v }

/-- The `pv[4]` array as filled at each `still_walking` label: the (finite)
points of the current cell. -/
def tet_points (M : Mesh) (t : ℕ) : PtQuad :=
  ⟨M.vertex (finite_tet_vertex M t 0), M.vertex (finite_tet_vertex M t 1),
   M.vertex (finite_tet_vertex M t 2), M.vertex (finite_tet_vertex M t 3)⟩

/-- A quadruple of signs: the `orient[4]` array reported by `locate`. -/
structure OriQuad where
  o0 : Sign
  o1 : Sign
  o2 : Sign
  o3 : Sign
  deriving DecidableEq, Repr

def OriQuad.get (q : OriQuad) (f : ℕ) : Sign :=
  match f with
  | 0 => q.o0
  | 1 => q.o1
  | 2 => q.o2
  | _ => q.o3

def OriQuad.set (q : OriQuad) (f : ℕ) (v : Sign) : OriQuad :=
  match f with
  | 0 => { q with o0 := v }
  | 1 => { q with o1 := v }
  | 2 => { q with o2 := v }
  | _ => { q with o3 := v }

/-- The hint-drawing loop shared by `locate` and `locate_inexact` (lines
460-465 / 584-589): draw random cells until a non-free one comes up.  `randH`
models the stream of `Numeric::random_int32()` draws, indexed by remaining
fuel; the C loop has no bound, so fuel exhaustion returns `none`. -/
def random_real_hint (M : Mesh) (randH : ℕ → ℕ) : ℕ → Option ℕ
  | 0 => none
  | n + 1 =>
      let h := randH n % max_t M
      if tet_is_free M h then random_real_hint M randH n else some h

/-- Lines 470-478 / 594-602: if the hint is virtual, move to its real
neighbor opposite the infinite vertex. -/
def jump_off_virtual (M : Mesh) (h : ℕ) : ℕ :=
  if tet_is_virtual M h then
    match (List.range 4).find? (fun lf => tet_vertex M h lf == -1) with
    | some lf => (tet_adjacent M h lf).toNat
    | none => h
  else h

/-- Outcome of one `still_walking` round of `locate_inexact`. -/
inductive IWalk where
  | notFound
  | stop (t : ℕ)
  | reenter (t : ℕ) (t_pred : Option ℕ) (max_iter : ℕ)
  deriving DecidableEq, Repr

/-- The facet loop of `locate_inexact` (lines 491-545), iterating over the
list of facets still to examine.  `max_iter` is the `index_t` (unsigned
32-bit) iteration budget; `--max_iter` wraps modulo `2^32`.  When the budget
hits zero the C code does not leave the `for` loop: it keeps scanning the
remaining facets with the stale `pv` array (in which `pv[f]` was left
overwritten by `p`) while `t`/`t_pred` already moved — the embedding
reproduces that behavior literally. -/
def iw_facets (M : Mesh) (p : Pt3) :
    PtQuad → ℕ → Option ℕ → ℕ → List ℕ → IWalk
  | _, t, _, _, [] => .stop t
  | pv, t, t_pred, max_iter, f :: rest =>
      let s := tet_adjacent M t f
      if s = -1 then .notFound
      else
        let t_next := s.toNat
        if t_pred == some t_next then iw_facets M p pv t t_pred max_iter rest
        else
          let q := pv.set f p
          let ori := orient_3d_inexact q.p0 q.p1 q.p2 q.p3
          if ori ≠ .negative then iw_facets M p pv t t_pred max_iter rest
          else if tet_is_virtual M t_next then .stop t_next
          else
            let mi := (max_iter + (2 ^ 32 - 1)) % 2 ^ 32
            if mi ≠ 0 then .reenter t_next (some t) mi
            else iw_facets M p (pv.set f p) t_next (some t) mi rest

/-- The `still_walking` loop of `locate_inexact`.  The comment at lines
567-570 notes the walk can loop forever, so the model carries explicit fuel;
`none` models divergence, `some none` is `NO_TETRAHEDRON`. -/
def locate_inexact_walk (M : Mesh) (p : Pt3) :
    ℕ → ℕ → Option ℕ → ℕ → Option (Option ℕ)
  | 0, _, _, _ => none
  | fuel + 1, t, t_pred, max_iter =>
      match iw_facets M p (tet_points M t) t t_pred max_iter [0, 1, 2, 3] with
      | .notFound => some none
      | .stop u => some (some u)
      | .reenter t' tp mi => locate_inexact_walk M p fuel t' tp mi

/-- `Delaunay3d::locate_inexact` (lines 455-554). -/
def locate_inexact (M : Mesh) (p : Pt3) (hint : Option ℕ) (max_iter : ℕ)
    (randH : ℕ → ℕ) (drawFuel walkFuel : ℕ) : Option (Option ℕ) :=
  let h0 : Option ℕ :=
    match hint with
    | some h => some h
    | none => random_real_hint M randH drawFuel
  match h0 with
  | none => none
  | some h => locate_inexact_walk M p walkFuel (jump_off_virtual M h) none max_iter

/-- Outcome of the facet loop of one `still_walking` round of `locate`. -/
inductive FacetOut where
  | notFound
  | foundVirtual (t : ℕ)
  | allChecked (ori : OriQuad)
  | step (t : ℕ) (t_pred : Option ℕ) (ori : OriQuad)
  deriving DecidableEq, Repr

/-- The facet loop of `locate` (lines 620-687), iterating over the facet
offsets `df` still to examine (`f = (f0 + df) % 4`, `f0` the random start).
The second component counts the calls to the exact orientation predicate:
the facet leading back to `t_pred` is skipped without a predicate call, its
orientation slot forced `POSITIVE` (lines 645-648). -/
def locate_facets (M : Mesh) (p : Pt3) (pv : PtQuad) (t : ℕ) (t_pred : Option ℕ)
    (f0 : ℕ) : OriQuad → List ℕ → FacetOut × ℕ
  | ori, [] => (.allChecked ori, 0)
  | ori, df :: rest =>
      let f := (f0 + df) % 4
      let s := tet_adjacent M t f
      if s = -1 then (.notFound, 0)
      else
        let t_next := s.toNat
        if t_pred == some t_next then
          locate_facets M p pv t t_pred f0 (ori.set f .positive) rest
        else
          let q := pv.set f p
          let o := orient_3d q.p0 q.p1 q.p2 q.p3
          if o ≠ .negative then
            let r := locate_facets M p pv t t_pred f0 (ori.set f o) rest
            (r.1, r.2 + 1)
          else if tet_is_virtual M t_next then (.foundVirtual t_next, 1)
          else (.step t_next (some t) (ori.set f o), 1)

/-- Result of `locate`: `notFound` is `NO_TETRAHEDRON`, `diverged` marks
model-fuel exhaustion (the C code would still be walking or drawing). -/
inductive LocateRes where
  | diverged
  | notFound
  | found (t : ℕ) (ori : OriQuad)
  deriving DecidableEq, Repr

/-- The `still_walking` loop of `locate` (lines 612-688).  `randF` models the
stream of random facet offsets (line 621), indexed by remaining fuel.  On
crossing a negative facet into a virtual cell, that cell is returned with all
four orientation slots forced `POSITIVE` (lines 672-680). -/
def locate_walk (M : Mesh) (p : Pt3) (randF : ℕ → ℕ) :
    ℕ → ℕ → Option ℕ → OriQuad → LocateRes
  | 0, _, _, _ => .diverged
  | fuel + 1, t, t_pred, ori =>
      let pv := tet_points M t
      let f0 := randF fuel % 4
      match locate_facets M p pv t t_pred f0 ori [0, 1, 2, 3] with
      | (.notFound, _) => .notFound
      | (.foundVirtual u, _) => .found u ⟨.positive, .positive, .positive, .positive⟩
      | (.allChecked ori', _) => .found t ori'
      | (.step t' tp ori', _) => locate_walk M p randF fuel t' tp ori'

/-- `Delaunay3d::locate` (lines 557-699): refine the hint with the bounded
inexact walk, draw a random non-free hint if needed, leave a virtual hint
through its real neighbor, then run the exact visibility walk.  `ori0` is the
caller's (uninitialized) `orient` array; the spinlock around the random draw
has no observable effect in this sequential model. -/
def locate (M : Mesh) (p : Pt3) (hint : Option ℕ) (ori0 : OriQuad)
    (randH randF : ℕ → ℕ) (izDrawFuel izWalkFuel drawFuel walkFuel : ℕ) :
    LocateRes :=
  match locate_inexact M p hint 2500 randH izDrawFuel izWalkFuel with
  | none => .diverged
  | some (some h) =>
      locate_walk M p randF walkFuel (jump_off_virtual M h) none ori0
  | some none =>
      match random_real_hint M randH drawFuel with
      | none => .diverged
      | some h => locate_walk M p randF walkFuel (jump_off_virtual M h) none ori0

/-- The weighted-mode height precomputation of `set_vertices` (lines
204-220): `w = -geo_sqr(vertices[4i+3])` and
`heights_[i] = -w + geo_sqr(x) + geo_sqr(y) + geo_sqr(z)`. -/
def compute_heights (verts : ℕ → ℚ) (nb : ℕ) : Array ℚ :=
  (Array.range nb).map fun i =>
    let w := -geo_sqr (verts (4 * i + 3));
    -w + geo_sqr (verts (4 * i)) + geo_sqr (verts (4 * i + 1)) +
      geo_sqr (verts (4 * i + 2))

/-- The lifted height as the spec's sentence words it: "an associated scalar
height computed once as `height = sum(coord_i^2) - (weight adjustment)^2`",
the weight adjustment being the 4th input component `vertices[4i+3]`.  Kept
separate from `compute_heights` (the code) for comparison. -/
def spec_height (verts : ℕ → ℚ) (i : ℕ) : ℚ :=
  geo_sqr (verts (4 * i)) + geo_sqr (verts (4 * i + 1)) +
    geo_sqr (verts (4 * i + 2)) - geo_sqr (verts (4 * i + 3))

/-- Modelled from the spec: `add_tet_to_list(t, first, last)` — chain `t` at
the tail of the transient conflict list (`first`/`last` are the in-out list
head and tail, `none` = `END_OF_LIST`). -/
def add_tet_to_list (M : Mesh) (t : ℕ) (first last : Option ℕ) :
    Mesh × Option ℕ × Option ℕ :=
  match last with
  | none => ({ M with cell_next_ := M.cell_next_.setD t .endOfList }, some t, some t)
  | some l =>
      ({ M with cell_next_ := (M.cell_next_.setD l (.cell t)).setD t .endOfList },
       first, some t)

/-- The in-out state of `find_conflict_zone`: the evolving mesh, the boundary
pair `(t_bndry, f_bndry)` (`none` while still unset — the C variables are
uninitialized until line 801), and the conflict-list head and tail. -/
structure FCZState where
  M : Mesh
  bndry : Option (ℕ × ℕ)
  first : Option ℕ
  last : Option ℕ

/-- `(orient[0]==ZERO) + (orient[1]==ZERO) + (orient[2]==ZERO) +
(orient[3]==ZERO)` (lines 722-726). -/
def nb_zero (ori : OriQuad) : ℕ :=
  (if ori.o0 = .zero then 1 else 0) + (if ori.o1 = .zero then 1 else 0) +
    (if ori.o2 = .zero then 1 else 0) + (if ori.o3 = .zero then 1 else 0)

/-- `Delaunay3d::find_conflict_zone_recursive` (lines 776-806): depth-first
greedy propagation over the four neighbors of a conflicting cell.
`conflict` abstracts `tet_is_conflict` of the missing header (the Delaunay
in-sphere / regular power test); the facet list holds the facets of `t`
still to visit.  Fuel is consumed on every step (`none` = out of fuel; the C
recursion terminates because the conflict zone is finite). -/
def find_conflict_zone_recursive (conflict : Mesh → ℕ → Pt3 → Bool) (p : Pt3) :
    ℕ → FCZState → ℕ → List ℕ → Option FCZState
  | 0, _, _, _ => none
  | _ + 1, st, _, [] => some st
  | fuel + 1, st, t, lf :: rest =>
      let t2 := (tet_adjacent st.M t lf).toNat
      if tet_is_in_list st.M t2 || tet_is_marked st.M t2 then
        find_conflict_zone_recursive conflict p fuel st t rest
      else if conflict st.M t2 p then
        let r := add_tet_to_list st.M t2 st.first st.last
        match find_conflict_zone_recursive conflict p fuel
            ⟨r.1, st.bndry, r.2.1, r.2.2⟩ t2 [0, 1, 2, 3] with
        | none => none
        | some st' => find_conflict_zone_recursive conflict p fuel st' t rest
      else
        find_conflict_zone_recursive conflict p fuel
          ⟨mark_tet st.M t2, some (t, lf), st.first, st.last⟩ t rest

/-- The pre-seeding first loop of `find_conflict_zone` (lines 756-761): add
the neighbors across the exactly-zero facets to the conflict list. -/
def add_zero_neighbors (ori : OriQuad) (t : ℕ) :
    Mesh → Option ℕ → Option ℕ → List ℕ → Mesh × Option ℕ × Option ℕ
  | M, first, last, [] => (M, first, last)
  | M, first, last, lf :: rest =>
      if ori.get lf = .zero then
        let r := add_tet_to_list M (tet_adjacent M t lf).toNat first last
        add_zero_neighbors ori t r.1 r.2.1 r.2.2 rest
      else add_zero_neighbors ori t M first last rest

/-- The pre-seeding second loop of `find_conflict_zone` (lines 762-769):
flood-fill from each neighbor across a zero facet. -/
def recurse_zero_neighbors (conflict : Mesh → ℕ → Pt3 → Bool) (p : Pt3)
    (fuel : ℕ) (ori : OriQuad) (t : ℕ) :
    FCZState → List ℕ → Option FCZState
  | st, [] => some st
  | st, lf :: rest =>
      if ori.get lf = .zero then
        match find_conflict_zone_recursive conflict p fuel st
            ((tet_adjacent st.M t lf).toNat) [0, 1, 2, 3] with
        | none => none
        | some st' => recurse_zero_neighbors conflict p fuel ori t st' rest
      else recurse_zero_neighbors conflict p fuel ori t st rest

/-- `Delaunay3d::find_conflict_zone` (lines 701-774): stamp the mesh for this
insertion, short-circuit when the point is a duplicate (at least 3 of the 4
orientation signs exactly ZERO) or, in weighted mode, not in conflict with
the located cell; otherwise seed the conflict list with `t` (plus the
neighbors across zero facets in the unweighted on-facet case) and greedily
propagate. -/
def find_conflict_zone (conflict : Mesh → ℕ → Pt3 → Bool) (fuel : ℕ)
    (M : Mesh) (v : ℕ) (t : ℕ) (ori : OriQuad) : Option FCZState :=
  let M0 := set_tet_mark_stamp M v
  let p := M0.vertex v
  let nz := nb_zero ori
  if 3 ≤ nz then some ⟨M0, none, none, none⟩
  else if M0.weighted && !conflict M0 t p then some ⟨M0, none, none, none⟩
  else
    let r := add_tet_to_list M0 t none none
    let st1 : FCZState := ⟨r.1, none, r.2.1, r.2.2⟩
    if !M0.weighted && nz ≠ 0 then
      let r2 := add_zero_neighbors ori t st1.M st1.first st1.last [0, 1, 2, 3]
      match recurse_zero_neighbors conflict p fuel ori t
          ⟨r2.1, none, r2.2.1, r2.2.2⟩ [0, 1, 2, 3] with
      | none => none
      | some st2 => find_conflict_zone_recursive conflict p fuel st2 t [0, 1, 2, 3]
    else find_conflict_zone_recursive conflict p fuel st1 t [0, 1, 2, 3]

/-- Modelled from the spec: `find_tet_adjacent(t2, t1)` — the local facet of
`t2` whose neighbor is `t1` (asserted to exist in the C code; `0` as total
fallback). -/
def find_tet_adjacent (M : Mesh) (t2 t1 : ℕ) : ℕ :=
  ((List.range 4).find? (fun lf => tet_adjacent M t2 lf == Int.ofNat t1)).getD 0

/-- Modelled from the spec: `find_tet_vertex(t, v)` — the local index of
vertex `v` in cell `t` (asserted to exist; `0` as total fallback). -/
def find_tet_vertex (M : Mesh) (t : ℕ) (v : Int) : ℕ :=
  ((List.range 4).find? (fun lv => tet_vertex M t lv == v)).getD 0

/-- Modelled from the spec and the duality comment at lines 842-850:
`get_facet_by_halfedge(t, v1, v2)` — the facet of `t` holding the oriented
halfedge `(v1, v2)`, through the primal reading of `halfedge_facet_`. -/
def get_facet_by_halfedge (M : Mesh) (t : ℕ) (v1 v2 : Int) : ℕ :=
  halfedge_facet_ (find_tet_vertex M t v1) (find_tet_vertex M t v2)

/-- Modelled from the spec: `get_facets_by_halfedge(t, v1, v2, f12, f21)` —
the two facets of `t` on either side of edge `(v1, v2)`. -/
def get_facets_by_halfedge (M : Mesh) (t : ℕ) (v1 v2 : Int) : ℕ × ℕ :=
  (halfedge_facet_ (find_tet_vertex M t v1) (find_tet_vertex M t v2),
   halfedge_facet_ (find_tet_vertex M t v2) (find_tet_vertex M t v1))

/-- The edge walk of `stellate_conflict_zone` (lines 856-868): turn around
edge `(ev1, ev2)` inside the conflict zone until a cell outside the zone is
reached; returns `(cur_t, cur_f, next_t)`. -/
def turn_in_conflict (M : Mesh) (ev1 ev2 : Int) :
    ℕ → ℕ → ℕ → ℕ → Option (ℕ × ℕ × ℕ)
  | 0, _, _, _ => none
  | fuel + 1, cur_t, cur_f, next_t =>
      if tet_is_in_list M next_t then
        let cur_t' := next_t
        let cur_f' := get_facet_by_halfedge M cur_t' ev1 ev2
        turn_in_conflict M ev1 ev2 fuel cur_t' cur_f'
          ((tet_adjacent M cur_t' cur_f').toNat)
      else some (cur_t, cur_f, next_t)

mutual

/-- `Delaunay3d::stellate_conflict_zone` (lines 809-891): replace conflicting
cell `t1` by a new cell with the new vertex `v_in` in the slot opposite the
boundary facet `f1`, link it across `f1`, then resolve and link its other
facets, recursing into not-yet-replaced boundary cells.  Fuel models the
finite recursion/walk depth (`none` = out of fuel). -/
def stellate_conflict_zone (v_in : ℕ) :
    ℕ → Mesh → ℕ → ℕ → Int → Option (ℕ × Mesh)
  | 0, _, _, _, _ => none
  | fuel + 1, M, t1, f1, prev_f =>
      let v : Int := Int.ofNat v_in
      let r := new_tetrahedron M (tet_vertex M t1 0) (tet_vertex M t1 1)
        (tet_vertex M t1 2) (tet_vertex M t1 3)
      let new_t := r.1
      let M2 := set_tet_vertex r.2 new_t f1 v
      let t2 := (tet_adjacent M2 t1 f1).toNat
      let M3 := set_tet_adjacent M2 new_t f1 t2
      let M4 := set_tet_adjacent M3 t2 (find_tet_adjacent M3 t2 t1) new_t
      match stellate_facets v_in fuel M4 new_t t1 f1 prev_f [0, 1, 2, 3] with
      | none => none
      | some M5 => some (new_t, M5)

/-- The loop over the three remaining facets of the new cell (lines
837-889). -/
def stellate_facets (v_in : ℕ) :
    ℕ → Mesh → ℕ → ℕ → ℕ → Int → List ℕ → Option Mesh
  | 0, _, _, _, _, _, _ => none
  | _ + 1, M, _, _, _, _, [] => some M
  | fuel + 1, M, new_t, t1, f1, prev_f, new_f :: rest =>
      if Int.ofNat new_f = prev_f ∨ tet_adjacent M new_t new_f ≠ -1 then
        stellate_facets v_in fuel M new_t t1 f1 prev_f rest
      else
        let ev1 := tet_vertex M t1 (halfedge_facet_ new_f f1)
        let ev2 := tet_vertex M t1 (halfedge_facet_ f1 new_f)
        match turn_in_conflict M ev1 ev2 fuel t1 new_f
            ((tet_adjacent M t1 new_f).toNat) with
        | none => none
        | some w =>
            let cur_t := w.1
            let cur_f := w.2.1
            let next_t := w.2.2
            let ff := get_facets_by_halfedge M next_t ev1 ev2
            let t_neigh := (tet_adjacent M next_t ff.2).toNat
            let v_neigh_opposite := tet_vertex M next_t ff.1
            let v_neigh_index := find_tet_vertex M t_neigh v_neigh_opposite
            if t_neigh = cur_t then
              match stellate_conflict_zone v_in fuel M cur_t cur_f
                  (Int.ofNat v_neigh_index) with
              | none => none
              | some s =>
                  let M' := set_tet_adjacent
                    (set_tet_adjacent s.2 s.1 v_neigh_index new_t) new_t new_f s.1
                  stellate_facets v_in fuel M' new_t t1 f1 prev_f rest
            else
              let M' := set_tet_adjacent
                (set_tet_adjacent M t_neigh v_neigh_index new_t) new_t new_f t_neigh
              stellate_facets v_in fuel M' new_t t1 f1 prev_f rest

end

/-- `Delaunay3d::insert` (lines 894-922): locate, find the conflict zone,
and either return `NO_TETRAHEDRON` (`some (none, ·)`) when the conflict list
is empty, or stellate and splice the conflict list onto the free list,
returning one new cell.  `none` models fuel exhaustion or a path on which the
C code's debug assertions would fail (location failed, or an uninitialized
boundary pair). -/
def insert (conflict : Mesh → ℕ → Pt3 → Bool) (M : Mesh) (v : ℕ)
    (hint : Option ℕ) (ori0 : OriQuad) (randH randF : ℕ → ℕ)
    (izDrawFuel izWalkFuel drawFuel walkFuel czFuel stFuel : ℕ) :
    Option (Option ℕ × Mesh) :=
  let p := M.vertex v
  match locate M p hint ori0 randH randF izDrawFuel izWalkFuel drawFuel walkFuel with
  | .diverged => none
  | .notFound => none
  | .found t ori =>
      match find_conflict_zone conflict czFuel M v t ori with
      | none => none
      | some st =>
          match st.first, st.last with
          | none, _ => some (none, st.M)
          | some first, some last =>
              match st.bndry with
              | none => none
              | some b =>
                  match stellate_conflict_zone v stFuel st.M b.1 b.2 (-1) with
                  | none => none
                  | some s =>
                      let M3 := { s.2 with
                        cell_next_ := s.2.cell_next_.setD last s.2.first_free_,
                        first_free_ := .cell first }
                      some (some s.1, M3)
          | some _, none => none

/-- A bounded upward scan: the first `k ≥ j` with `¬ skip k`, where `fuel ≥
nb - j` makes the recursion structural; `skip` is only consulted below the
bound `nb` and the C `while` loops stop at `nb`, so with `fuel = nb` this is
exactly the source's scan. -/
def scan_first (nb : ℕ) (skip : ℕ → Bool) : ℕ → ℕ → ℕ
  | 0, j => j
  | fuel + 1, j =>
      if j < nb then
        if skip j then scan_first nb skip fuel (j + 1) else j
      else j

/-- The duplicate-skipping scan of `create_first_tetrahedron` (lines
933-941): the first `j ≥ start` whose point differs from that of `i0`
(`nb_vertices` if none). -/
def scan_non_identical (M : Mesh) (i0 : ℕ) (j : ℕ) : ℕ :=
  scan_first M.nb_vertices
    (fun k => points_are_identical (M.vertex i0) (M.vertex k)) M.nb_vertices j

/-- The collinear-skipping scan (lines 946-954). -/
def scan_non_colinear (M : Mesh) (i0 i1 : ℕ) (j : ℕ) : ℕ :=
  scan_first M.nb_vertices
    (fun k => points_are_colinear (M.vertex i0) (M.vertex i1) (M.vertex k))
    M.nb_vertices j

/-- The coplanar-skipping scan (lines 959-969). -/
def scan_non_coplanar (M : Mesh) (i0 i1 i2 : ℕ) (j : ℕ) : ℕ :=
  scan_first M.nb_vertices
    (fun k =>
      orient_3d (M.vertex i0) (M.vertex i1) (M.vertex i2) (M.vertex k) == .zero)
    M.nb_vertices j

/-- The construction part of `create_first_tetrahedron` (lines 981-1015):
the first real tetrahedron over the (already orientation-normalized) vertex
indices, its four surrounding virtual tetrahedra (each listing a face of the
real one in reverse order behind the infinite vertex), and the full
cross-linking of all five cells. -/
def build_first_cells (M : Mesh) (iv0 iv1 jv2 jv3 : ℕ) : Mesh :=
  let r0 := new_tetrahedron M (Int.ofNat iv0) (Int.ofNat iv1)
    (Int.ofNat jv2) (Int.ofNat jv3)
  let t0 := r0.1
  let mkVirtual : Mesh → ℕ → ℕ × Mesh := fun Mc f =>
    new_tetrahedron Mc (-1)
      (tet_vertex Mc t0 (tet_facet_vertex f 2))
      (tet_vertex Mc t0 (tet_facet_vertex f 1))
      (tet_vertex Mc t0 (tet_facet_vertex f 0))
  let r1 := mkVirtual r0.2 0
  let r2 := mkVirtual r1.2 1
  let r3 := mkVirtual r2.2 2
  let r4 := mkVirtual r3.2 3
  let tv : ℕ → ℕ := fun f =>
    match f with
    | 0 => r1.1
    | 1 => r2.1
    | 2 => r3.1
    | _ => r4.1
  let link : Mesh → ℕ → Mesh := fun Mc f =>
    set_tet_adjacent (set_tet_adjacent Mc (tv f) 0 t0) t0 f (tv f)
  let Ma := link (link (link (link r4.2 0) 1) 2) 3
  let interlink : Mesh → ℕ → Mesh := fun Mc f =>
    let lv1 := tet_facet_vertex f 2
    let lv2 := tet_facet_vertex f 1
    let lv3 := tet_facet_vertex f 0
    set_tet_adjacent (set_tet_adjacent
      (set_tet_adjacent Mc (tv f) 1 (tv lv1)) (tv f) 2 (tv lv2))
      (tv f) 3 (tv lv3)
  interlink (interlink (interlink (interlink Ma 0) 1) 2) 3

/-- `Delaunay3d::create_first_tetrahedron` (lines 924-1018): scan the vertex
sequence (in original index order) for the first non-degenerate quadruple,
swap `iv2`/`iv3` when its orientation is `NEGATIVE`, create the first real
tetrahedron and its four surrounding virtual tetrahedra, and cross-link all
of them.  `none` models the `false` (degenerate input) return. -/
def create_first_tetrahedron (M : Mesh) : Option (Mesh × ℕ × ℕ × ℕ × ℕ) :=
  if M.nb_vertices < 4 then none
  else
    let iv0 := 0
    let iv1 := scan_non_identical M iv0 1
    if iv1 = M.nb_vertices then none
    else
      let iv2 := scan_non_colinear M iv0 iv1 (iv1 + 1)
      if iv2 = M.nb_vertices then none
      else
        let iv3 := scan_non_coplanar M iv0 iv1 iv2 (iv2 + 1)
        if iv3 = M.nb_vertices then none
        else
          let s := orient_3d (M.vertex iv0) (M.vertex iv1) (M.vertex iv2) (M.vertex iv3)
          let jv2 := if s = .negative then iv3 else iv2
          let jv3 := if s = .negative then iv2 else iv3
          some (build_first_cells M iv0 iv1 jv2 jv3, iv0, iv1, jv2, jv3)

/-- The first-quadruple selection as the spec's sentence words it ("scanning
the reordered vertex sequence for the first 4 points that are not
pairwise-identical/collinear/coplanar ... if orientation of the first valid
quadruple is negative, swap two vertex indices"): the same scans, but over
the sequence `k ↦ vertex(reorder[k])`, returning the selected vertex
indices.  Kept separate from `create_first_tetrahedron` (which scans the
vertex array in original index order) for comparison. -/
def spec_reordered_first_quadruple (M : Mesh) (reorder : Array ℕ) :
    Option (ℕ × ℕ × ℕ × ℕ) :=
  if M.nb_vertices < 4 then none
  else
    let vat : ℕ → Pt3 := fun k => M.vertex (reorder.getD k 0)
    let i1 := scan_first M.nb_vertices
      (fun k => points_are_identical (vat 0) (vat k)) M.nb_vertices 1
    if i1 = M.nb_vertices then none
    else
      let i2 := scan_first M.nb_vertices
        (fun k => points_are_colinear (vat 0) (vat i1) (vat k))
        M.nb_vertices (i1 + 1)
      if i2 = M.nb_vertices then none
      else
        let i3 := scan_first M.nb_vertices
          (fun k => orient_3d (vat 0) (vat i1) (vat i2) (vat k) == .zero)
          M.nb_vertices (i2 + 1)
        if i3 = M.nb_vertices then none
        else
          let s := orient_3d (vat 0) (vat i1) (vat i2) (vat i3)
          let j2 := if s = .negative then i3 else i2
          let j3 := if s = .negative then i2 else i3
          some (reorder.getD 0 0, reorder.getD i1 0, reorder.getD j2 0,
            reorder.getD j3 0)

/-- The entry bookkeeping of `set_vertices` (lines 203-233): reset the
stamp, precompute the lifted heights in weighted mode, and clear the
tetrahedron stores and the free list. -/
def set_vertices_prepare (M : Mesh) : Mesh :=
  let M1 := { M with cur_stamp_ := 0 }
  let M2 :=
    if M1.weighted then
      { M1 with heights_ := compute_heights M1.verts M1.nb_vertices }
    else M1
  { M2 with cell_to_v_store_ := #[], cell_to_cell_store_ := #[],
            cell_next_ := #[], marks := #[], first_free_ := .endOfList }

/-- The optional progress callback: `true` = keep going (a missing callback
never aborts). -/
def cb_ok (cb : Option (ℕ → ℕ → Bool)) (i n : ℕ) : Bool :=
  match cb with
  | none => true
  | some f => f i n

/-- The incremental insertion loop of `set_vertices` (lines 264-277):
vertices in reorder-permutation order, each insertion seeded with the last
produced hint; the four vertices of the first tetrahedron are skipped.
`some (false, ·)` is the progress-callback abort, `none` fuel exhaustion. -/
def insert_loop (conflict : Mesh → ℕ → Pt3 → Bool) (fuel : ℕ)
    (reorder : Array ℕ) (cb : Option (ℕ → ℕ → Bool)) (v0 v1 v2 v3 nb : ℕ)
    (randH randF : ℕ → ℕ) :
    List ℕ → Mesh → Option ℕ → Option (Bool × Mesh)
  | [], M, _ => some (true, M)
  | i :: rest, M, hint =>
      if !cb_ok cb i nb then some (false, M)
      else
        let v := reorder.getD i 0
        if v = v0 ∨ v = v1 ∨ v = v2 ∨ v = v3 then
          insert_loop conflict fuel reorder cb v0 v1 v2 v3 nb randH randF rest M hint
        else
          match insert conflict M v hint ⟨.zero, .zero, .zero, .zero⟩ randH randF
              fuel fuel fuel fuel fuel fuel with
          | none => none
          | some r =>
              insert_loop conflict fuel reorder cb v0 v1 v2 v3 nb randH randF rest r.2
                (match r.1 with
                 | some h => some h
                 | none => hint)

/-- The compaction scan of `set_vertices` (lines 302-330): keep a cell when
it is real, or (in keep-infinite mode) merely non-free; build the compacted
vertex/neighbor arrays and the old-to-new index table (`-1` = dropped). -/
def compact_scan (M : Mesh) :
    List ℕ → Array Int × Array Int × Array Int × ℕ →
    Array Int × Array Int × Array Int × ℕ
  | [], acc => acc
  | t :: rest, (newV, newAdj, old2new, nb) =>
      if (M.keep_infinite && !tet_is_free M t) || tet_is_real M t then
        compact_scan M rest
          (((((newV.push (tet_vertex M t 0)).push (tet_vertex M t 1)).push
              (tet_vertex M t 2)).push (tet_vertex M t 3)),
           ((((newAdj.push (tet_adjacent M t 0)).push (tet_adjacent M t 1)).push
              (tet_adjacent M t 2)).push (tet_adjacent M t 3)),
           old2new.push (Int.ofNat nb), nb + 1)
      else compact_scan M rest (newV, newAdj, old2new.push (-1), nb)

/-- `tet_is_finite` read directly off a compacted vertex array (out-of-range
cells read as infinite). -/
def raw_is_finite (V : Array Int) (t : ℕ) : Bool :=
  !(V.getD (4 * t) (-1) == -1 || V.getD (4 * t + 1) (-1) == -1 ||
    V.getD (4 * t + 2) (-1) == -1 || V.getD (4 * t + 3) (-1) == -1)

/-- The first inner `while` of the keep-infinite partition (lines 354-358):
advance `finite_ptr` over finite cells, fixing `old2new` to the identity. -/
def advance_finite (V : Array Int) :
    ℕ → Array Int → ℕ → ℕ → Array Int × ℕ × ℕ
  | 0, o2n, fp, nbf => (o2n, fp, nbf)
  | fuel + 1, o2n, fp, nbf =>
      if raw_is_finite V fp then
        advance_finite V fuel (o2n.setD fp (Int.ofNat fp)) (fp + 1) (nbf + 1)
      else (o2n, fp, nbf)

/-- The second inner `while` (lines 359-362): retreat `infinite_ptr` over
infinite cells.  `none` models the underflow of the unsigned pointer. -/
def retreat_infinite (V : Array Int) :
    ℕ → Array Int → ℕ → Option (Array Int × ℕ)
  | 0, _, _ => none
  | fuel + 1, o2n, ip =>
      if !raw_is_finite V ip then
        if ip = 0 then none
        else retreat_infinite V fuel (o2n.setD ip (Int.ofNat ip)) (ip - 1)
      else some (o2n, ip)

/-- Swap the 4 entries of cells `a` and `b` in a flat per-cell array. -/
def swap_cell_range (A : Array Int) (a b : ℕ) : Array Int :=
  let sw : Array Int → ℕ → Array Int := fun A0 k =>
    let x := A0.getD (4 * a + k) (-1)
    let y := A0.getD (4 * b + k) (-1)
    (A0.setD (4 * a + k) y).setD (4 * b + k) x
  sw (sw (sw (sw A 0) 1) 2) 3

/-- The two-pointer partition loop of the keep-infinite mode (lines
349-383): move finite cells to the low range and infinite cells to the high
range, recording the transposition in `old2new`. -/
def partition_loop (fuel0 : ℕ) (nb : ℕ) :
    ℕ → Array Int → Array Int → Array Int → ℕ → ℕ → ℕ →
    Option (Array Int × Array Int × Array Int × ℕ)
  | 0, _, _, _, _, _, _ => none
  | fuel + 1, V, Adj, o2n, fp, ip, nbf =>
      let a := advance_finite V fuel0 o2n fp nbf
      match retreat_infinite V fuel0 a.1 ip with
      | none => none
      | some r =>
          let fp1 := a.2.1
          let nbf1 := a.2.2
          let ip1 := r.2
          if ip1 < fp1 then some (V, Adj, r.1, nbf1)
          else
            let o2n2 := (r.1.setD fp1 (Int.ofNat ip1)).setD ip1 (Int.ofNat fp1)
            partition_loop fuel0 nb fuel (swap_cell_range V fp1 ip1)
              (swap_cell_range Adj fp1 ip1) o2n2 (fp1 + 1) (ip1 - 1) (nbf1 + 1)

/-- Remap a flat neighbor array through the old-to-new table (a dropped
neighbor becomes `-1`), as the loops at lines 333-342 / 384-390 do. -/
def remap_store (A o2n : Array Int) : Array Int :=
  (A.toList.map fun s => o2n.getD s.toNat (-1)).toArray

/-- The compaction / finalization tail of `set_vertices` (lines 291-408):
compress the stores, remap neighbor indices through the old-to-new table
(dropped cells become `-1`), optionally partition finite cells to the low
range, and publish the finalized arrays (`set_arrays`).  The C code reuses
`cell_next_` as storage for the old-to-new table; the model keeps that table
separate, so `cell_next_` is simply left stale here as its contents are
meaningless after compaction. -/
def compact_mesh (partFuel : ℕ) (M : Mesh) : Option Mesh :=
  let c := compact_scan M (List.range (max_t M)) (#[], #[], #[], 0)
  let V := c.1
  let o2n := c.2.2.1
  let nb := c.2.2.2
  let Adj := remap_store c.2.1 o2n
  if M.keep_infinite then
    match partition_loop partFuel nb partFuel V Adj o2n 0 (nb - 1) 0 with
    | none => none
    | some pr =>
        let Adj2 := remap_store pr.2.1 pr.2.2.1
        some { M with cell_to_v_store_ := pr.1, cell_to_cell_store_ := Adj2,
                      out_ncells := nb, out_cellV := pr.1, out_cellAdj := Adj2,
                      nb_finite_cells_ := pr.2.2.2 }
  else
    some { M with cell_to_v_store_ := V, cell_to_cell_store_ := Adj,
                  out_ncells := nb, out_cellV := V, out_cellAdj := Adj }

/-- `Delaunay3d::set_vertices` (lines 196-411): prepare, take the externally
computed spatial reorder permutation (BRIO, or the identity), create the
first tetrahedron — on degenerate input print and **return `true`** without
touching the finalized arrays — insert all remaining vertices, compact and
publish.  `some (false, ·)` is only produced by a progress-callback abort;
`none` models fuel exhaustion. -/
def set_vertices (conflict : Mesh → ℕ → Pt3 → Bool) (fuel : ℕ) (M : Mesh)
    (reorder : Array ℕ) (cb : Option (ℕ → ℕ → Bool)) (randH randF : ℕ → ℕ) :
    Option (Bool × Mesh) :=
  let M1 := set_vertices_prepare M
  if !cb_ok cb 0 0 then some (false, M1)
  else
    match create_first_tetrahedron M1 with
    | none => some (true, M1)
    | some r =>
        match insert_loop conflict fuel reorder cb r.2.1 r.2.2.1 r.2.2.2.1
            r.2.2.2.2 M1.nb_vertices randH randF
            (List.range M1.nb_vertices) r.1 none with
        | none => none
        | some (false, M3) => some (false, M3)
        | some (true, M3) =>
            match compact_mesh fuel M3 with
            | none => none
            | some M4 => some (true, M4)

/-- A `Pt3` as a vector of `Fin 3 → ℚ`, for stating collinearity through
Mathlib's `Collinear`. -/
def toVec (p : Pt3) : Fin 3 → ℚ
  | 0 => p.x
  | 1 => p.y
  | 2 => p.z

/-- A concrete weighted vertex buffer: one point `(0,0,0)` with 4th input
component `1`. -/
def c7_verts : ℕ → ℚ := fun i => if i = 3 then 1 else 0

/-- A concrete flat buffer: the four points `(0,0,0)`, `(8,0,0)`, `(0,8,0)`,
`(0,0,8)` followed by a duplicate of the first. -/
def sample_verts : ℕ → ℚ := fun i =>
  [0, 0, 0, 8, 0, 0, 0, 8, 0, 0, 0, 8, 0, 0, 0].getD i 0

/-- A fresh unweighted `Delaunay3d` state over the first 4 sample points. -/
def sample_mesh4 : Mesh :=
  { nb_vertices := 4, verts := sample_verts, weighted := false,
    keep_infinite := false, heights_ := #[], cell_to_v_store_ := #[],
    cell_to_cell_store_ := #[], cell_next_ := #[], first_free_ := .endOfList,
    cur_stamp_ := 0, marks := #[], out_ncells := 0, out_cellV := #[],
    out_cellAdj := #[], nb_finite_cells_ := 0 }

/-- The 5-cell mesh (1 real + 4 virtual tetrahedra) built by
`create_first_tetrahedron` over the sample points. -/
def sample_mesh5 : Mesh :=
  ((create_first_tetrahedron sample_mesh4).map Prod.fst).getD sample_mesh4

/-- The 5-cell mesh with the duplicate 5th sample point visible. -/
def sample_mesh5d : Mesh := { sample_mesh5 with nb_vertices := 5 }

/-- A degenerate flat buffer: four collinear points on the x-axis. -/
def line_verts : ℕ → ℚ := fun i =>
  [0, 0, 0, 1, 0, 0, 2, 0, 0, 3, 0, 0].getD i 0

/-- A fresh unweighted `Delaunay3d` state over the four collinear points. -/
def line_mesh4 : Mesh := { sample_mesh4 with verts := line_verts }

/-- The result pair of inserting the duplicate 5th sample point into the
5-cell sample mesh (`NO_TETRAHEDRON` no-hint outcome expected). -/
def c4_insert_result : Option ℕ × Mesh :=
  (Delaunay3d.insert (fun _ _ _ => false) sample_mesh5d 4 (some 0)
    ⟨.zero, .zero, .zero, .zero⟩ (fun _ => 0) (fun _ => 0) 5 5 5 5 20 20).getD
    (none, sample_mesh5d)

/-- The finalized sample mesh: `set_vertices` over the 4 sample points with
infinite cells stripped — one real cell whose four neighbor slots are all
unset (`-1`), the configuration `locate` meets when reused for
nearest-vertex queries on a finalized mesh. -/
def stripped_mesh : Mesh :=
  ((set_vertices (fun _ _ _ => false) 50 sample_mesh4 #[0, 1, 2, 3] none
      (fun _ => 0) (fun _ => 0)).map Prod.snd).getD sample_mesh4

/-- Five points in general position: the four sample points plus `(1,2,3)`. -/
def cex_verts : ℕ → ℚ := fun i =>
  [0, 0, 0, 8, 0, 0, 0, 8, 0, 0, 0, 8, 1, 2, 3].getD i 0

/-- A fresh unweighted `Delaunay3d` state over the five `cex_verts` points. -/
def cex_mesh : Mesh :=
  { sample_mesh4 with nb_vertices := 5, verts := cex_verts }

lemma geo_sgn_eq_zero {d : ℚ} : geo_sgn d = .zero ↔ d = 0 := by
  unfold geo_sgn
  split_ifs with h1 h2
  · refine iff_of_false (by decide) fun h => ?_
    rw [h] at h1
    exact lt_irrefl 0 h1
  · exact iff_of_true rfl h2
  · exact iff_of_false (by decide) h2

/-- C9: the two fixed lookup tables are combinatorially correct.  For every
pair of distinct local facet indices `f1 ≠ f2`, `halfedge_facet_[f1][f2]` is
a local vertex in `{0,1,2,3} \ {f1, f2}` (hence common to facets `f1` and
`f2`, a facet containing every local vertex but its own index), and
`halfedge_facet_[f1][f2] ≠ halfedge_facet_[f2][f1]`.  For every local vertex
`lv`, `tet_facet_vertex_[lv]` lists exactly the three other local vertices,
ordered so that `(lv, row[0], row[1], row[2])` has the same orientation as
`(0,1,2,3)` for every assignment of points to the four local vertices. -/
theorem duality_tables_correct :
    (∀ f1 f2 : ℕ, f1 < 4 → f2 < 4 → f1 ≠ f2 →
      halfedge_facet_ f1 f2 < 4 ∧ halfedge_facet_ f1 f2 ≠ f1 ∧
        halfedge_facet_ f1 f2 ≠ f2 ∧
        halfedge_facet_ f1 f2 ≠ halfedge_facet_ f2 f1) ∧
    (∀ lv : ℕ, lv < 4 →
      ((∀ i : ℕ, i < 3 → tet_facet_vertex_ lv i < 4 ∧ tet_facet_vertex_ lv i ≠ lv) ∧
        tet_facet_vertex_ lv 0 ≠ tet_facet_vertex_ lv 1 ∧
        tet_facet_vertex_ lv 0 ≠ tet_facet_vertex_ lv 2 ∧
        tet_facet_vertex_ lv 1 ≠ tet_facet_vertex_ lv 2) ∧
      ∀ p : ℕ → Pt3,
        orient_3d (p lv) (p (tet_facet_vertex_ lv 0))
            (p (tet_facet_vertex_ lv 1)) (p (tet_facet_vertex_ lv 2)) =
          orient_3d (p 0) (p 1) (p 2) (p 3)) := by
  constructor
  · intro f1 f2 h1 h2 hne
    interval_cases f1 <;> interval_cases f2 <;>
      first
        | exact absurd rfl hne
        | decide
  · intro lv hlv
    interval_cases lv
    · exact ⟨by decide, fun p => rfl⟩
    · refine ⟨by decide, fun p => ?_⟩
      show orient_3d (p 1) (p 0) (p 3) (p 2) = orient_3d (p 0) (p 1) (p 2) (p 3)
      unfold orient_3d
      exact congrArg geo_sgn (by simp only [det3x3]; ring)
    · refine ⟨by decide, fun p => ?_⟩
      show orient_3d (p 2) (p 3) (p 0) (p 1) = orient_3d (p 0) (p 1) (p 2) (p 3)
      unfold orient_3d
      exact congrArg geo_sgn (by simp only [det3x3]; ring)
    · refine ⟨by decide, fun p => ?_⟩
      show orient_3d (p 3) (p 1) (p 0) (p 2) = orient_3d (p 0) (p 1) (p 2) (p 3)
      unfold orient_3d
      exact congrArg geo_sgn (by simp only [det3x3]; ring)

lemma compute_heights_entry (verts : ℕ → ℚ) (nb : ℕ) :
    (compute_heights verts nb).size = nb ∧
    ∀ i : ℕ, i < nb →
      (compute_heights verts nb).getD i 0 =
        geo_sqr (verts (4 * i)) + geo_sqr (verts (4 * i + 1)) +
          geo_sqr (verts (4 * i + 2)) + geo_sqr (verts (4 * i + 3)) := by
  have hsz : (compute_heights verts nb).size = nb := by
    simp [compute_heights]
  refine ⟨hsz, fun i hi => ?_⟩
  have hlt : i < (compute_heights verts nb).size := by omega
  rw [Array.getD, dif_pos hlt]
  simp only [compute_heights, Array.get_eq_getElem, Array.getElem_map,
    Array.getElem_range]
  ring

/-- C7 counterexample: at the vertex `(0,0,0)` with 4th component `1`, the
code computes height `0² + 0² + 0² + 1² = 1`, while the claimed formula
`x² + y² + z² − (vertices[4i+3])²` gives `-1`: the 4th component's square is
added, not subtracted. -/
theorem heights_sign_counterexample :
    (compute_heights c7_verts 1).getD 0 0 = 1 ∧ spec_height c7_verts 0 = -1 ∧
      (compute_heights c7_verts 1).getD 0 0 ≠ spec_height c7_verts 0 := by
  have h := (compute_heights_entry c7_verts 1).2 0 (by norm_num)
  have h1 : (compute_heights c7_verts 1).getD 0 0 = 1 := by
    rw [h]
    norm_num [c7_verts, geo_sqr]
  have h2 : spec_height c7_verts 0 = -1 := by
    norm_num [spec_height, c7_verts, geo_sqr]
  refine ⟨h1, h2, ?_⟩
  rw [h1, h2]
  norm_num

/-- C7 amended: in weighted mode `set_vertices` computes, once per vertex
`i`, the lifted height `heights_[i] = x_i² + y_i² + z_i² + (vertices[4i+3])²`
(the 4th input component being `sqrt(W - w_i)`, this is the standard
paraboloid lift `‖p‖² - w_i` shifted by the constant `W`). -/
theorem compute_heights_formula :
    ∀ (verts : ℕ → ℚ) (nb : ℕ),
      (compute_heights verts nb).size = nb ∧
      ∀ i : ℕ, i < nb →
        (compute_heights verts nb).getD i 0 =
          geo_sqr (verts (4 * i)) + geo_sqr (verts (4 * i + 1)) +
            geo_sqr (verts (4 * i + 2)) + geo_sqr (verts (4 * i + 3)) :=
  fun verts nb => compute_heights_entry verts nb

/-- C7 amended, witness: the height of the single vertex of `c7_verts`. -/
theorem compute_heights_formula_witness :
    (compute_heights c7_verts 1).getD 0 0 =
      geo_sqr (c7_verts 0) + geo_sqr (c7_verts 1) + geo_sqr (c7_verts 2) +
        geo_sqr (c7_verts 3) :=
  (compute_heights_formula c7_verts 1).2 0 (by decide)

lemma toVec_zero (p : Pt3) : toVec p 0 = p.x := rfl

lemma toVec_one (p : Pt3) : toVec p 1 = p.y := rfl

lemma toVec_two (p : Pt3) : toVec p 2 = p.z := rfl

lemma funext_fin3 {f g : Fin 3 → ℚ} (h0 : f 0 = g 0) (h1 : f 1 = g 1)
    (h2 : f 2 = g 2) : f = g := by
  funext i
  match i with
  | 0 => exact h0
  | 1 => exact h1
  | 2 => exact h2

/-- C10: `points_are_colinear(p1, p2, p3)` returns `true` exactly when the
three points are collinear (in Mathlib's sense, over their vector images),
because a triple is collinear exactly when it is coplanar with each of the
four affinely independent reference points `(0,0,0)`, `(0,0,1)`, `(0,1,0)`,
`(1,0,0)`. -/
theorem points_are_colinear_iff :
    ∀ p1 p2 p3 : Pt3,
      points_are_colinear p1 p2 p3 = true ↔
        Collinear ℚ ({toVec p1, toVec p2, toVec p3} : Set (Fin 3 → ℚ)) := by
  intro p1 p2 p3
  have hmem : toVec p1 ∈ ({toVec p1, toVec p2, toVec p3} : Set (Fin 3 → ℚ)) :=
    Set.mem_insert _ _
  rw [collinear_iff_of_mem hmem]
  constructor
  · intro hcol
    simp only [points_are_colinear, Bool.and_eq_true, beq_iff_eq] at hcol
    obtain ⟨⟨⟨h000, h001⟩, h010⟩, h100⟩ := hcol
    simp only [orient_3d, geo_sgn_eq_zero, det3x3] at h000 h001 h010 h100
    have cz : (p2.x - p1.x) * (p3.y - p1.y) - (p2.y - p1.y) * (p3.x - p1.x) = 0 := by
      linear_combination h001 - h000
    have cy : (p2.z - p1.z) * (p3.x - p1.x) - (p2.x - p1.x) * (p3.z - p1.z) = 0 := by
      linear_combination h010 - h000
    have cx : (p2.y - p1.y) * (p3.z - p1.z) - (p2.z - p1.z) * (p3.y - p1.y) = 0 := by
      linear_combination h100 - h000
    rcases eq_or_ne (p2.x - p1.x) 0 with hx0 | hx
    · rcases eq_or_ne (p2.y - p1.y) 0 with hy0 | hy
      · rcases eq_or_ne (p2.z - p1.z) 0 with hz0 | hz
        · refine ⟨toVec p3 - toVec p1, fun q hq => ?_⟩
          simp only [Set.mem_insert_iff, Set.mem_singleton_iff] at hq
          rcases hq with rfl | rfl | rfl
          · exact ⟨0, by simp⟩
          · refine ⟨0, funext_fin3 ?_ ?_ ?_⟩ <;>
              simp only [toVec_zero, toVec_one, toVec_two, vadd_eq_add,
                Pi.add_apply, Pi.smul_apply, Pi.sub_apply, smul_eq_mul,
                zero_mul, zero_add] <;>
              linarith
          · refine ⟨1, funext_fin3 ?_ ?_ ?_⟩ <;>
              simp only [toVec_zero, toVec_one, toVec_two, vadd_eq_add,
                Pi.add_apply, Pi.smul_apply, Pi.sub_apply, smul_eq_mul,
                one_mul] <;>
              ring
        · refine ⟨toVec p2 - toVec p1, fun q hq => ?_⟩
          simp only [Set.mem_insert_iff, Set.mem_singleton_iff] at hq
          rcases hq with rfl | rfl | rfl
          · exact ⟨0, by simp⟩
          · refine ⟨1, funext_fin3 ?_ ?_ ?_⟩ <;>
              simp only [toVec_zero, toVec_one, toVec_two, vadd_eq_add,
                Pi.add_apply, Pi.smul_apply, Pi.sub_apply, smul_eq_mul,
                one_mul] <;>
              ring
          · refine ⟨(p3.z - p1.z) / (p2.z - p1.z), funext_fin3 ?_ ?_ ?_⟩ <;>
              simp only [toVec_zero, toVec_one, toVec_two, vadd_eq_add,
                Pi.add_apply, Pi.smul_apply, Pi.sub_apply, smul_eq_mul]
            · rw [hx0, mul_zero]
              have hvx : (p2.z - p1.z) * (p3.x - p1.x) = 0 := by
                linear_combination cy + (p3.z - p1.z) * hx0
              rcases mul_eq_zero.1 hvx with h | h
              · exact absurd h hz
              · linarith
            · rw [hy0, mul_zero]
              have hvy : (p2.z - p1.z) * (p3.y - p1.y) = 0 := by
                linear_combination -cx + (p3.z - p1.z) * hy0
              rcases mul_eq_zero.1 hvy with h | h
              · exact absurd h hz
              · linarith
            · field_simp
      · refine ⟨toVec p2 - toVec p1, fun q hq => ?_⟩
        simp only [Set.mem_insert_iff, Set.mem_singleton_iff] at hq
        rcases hq with rfl | rfl | rfl
        · exact ⟨0, by simp⟩
        · refine ⟨1, funext_fin3 ?_ ?_ ?_⟩ <;>
            simp only [toVec_zero, toVec_one, toVec_two, vadd_eq_add,
              Pi.add_apply, Pi.smul_apply, Pi.sub_apply, smul_eq_mul,
              one_mul] <;>
            ring
        · refine ⟨(p3.y - p1.y) / (p2.y - p1.y), funext_fin3 ?_ ?_ ?_⟩ <;>
            simp only [toVec_zero, toVec_one, toVec_two, vadd_eq_add,
              Pi.add_apply, Pi.smul_apply, Pi.sub_apply, smul_eq_mul]
          · rw [hx0, mul_zero]
            have hvx : (p2.y - p1.y) * (p3.x - p1.x) = 0 := by
              linear_combination -cz + (p3.y - p1.y) * hx0
            rcases mul_eq_zero.1 hvx with h | h
            · exact absurd h hy
            · linarith
          · field_simp
          · field_simp
            linear_combination cx
    · refine ⟨toVec p2 - toVec p1, fun q hq => ?_⟩
      simp only [Set.mem_insert_iff, Set.mem_singleton_iff] at hq
      rcases hq with rfl | rfl | rfl
      · exact ⟨0, by simp⟩
      · refine ⟨1, funext_fin3 ?_ ?_ ?_⟩ <;>
          simp only [toVec_zero, toVec_one, toVec_two, vadd_eq_add,
            Pi.add_apply, Pi.smul_apply, Pi.sub_apply, smul_eq_mul,
            one_mul] <;>
          ring
      · refine ⟨(p3.x - p1.x) / (p2.x - p1.x), funext_fin3 ?_ ?_ ?_⟩ <;>
          simp only [toVec_zero, toVec_one, toVec_two, vadd_eq_add,
            Pi.add_apply, Pi.smul_apply, Pi.sub_apply, smul_eq_mul]
        · field_simp
        · field_simp
          linear_combination cz
        · field_simp
          linear_combination (-1 : ℚ) * cy
  · rintro ⟨dir, hall⟩
    obtain ⟨r2, h2⟩ := hall (toVec p2) (by simp)
    obtain ⟨r3, h3⟩ := hall (toVec p3) (by simp)
    have e2x : p2.x = r2 * dir 0 + p1.x := by
      simpa only [toVec_zero, vadd_eq_add, Pi.add_apply, Pi.smul_apply,
        smul_eq_mul] using congrFun h2 0
    have e2y : p2.y = r2 * dir 1 + p1.y := by
      simpa only [toVec_one, vadd_eq_add, Pi.add_apply, Pi.smul_apply,
        smul_eq_mul] using congrFun h2 1
    have e2z : p2.z = r2 * dir 2 + p1.z := by
      simpa only [toVec_two, vadd_eq_add, Pi.add_apply, Pi.smul_apply,
        smul_eq_mul] using congrFun h2 2
    have e3x : p3.x = r3 * dir 0 + p1.x := by
      simpa only [toVec_zero, vadd_eq_add, Pi.add_apply, Pi.smul_apply,
        smul_eq_mul] using congrFun h3 0
    have e3y : p3.y = r3 * dir 1 + p1.y := by
      simpa only [toVec_one, vadd_eq_add, Pi.add_apply, Pi.smul_apply,
        smul_eq_mul] using congrFun h3 1
    have e3z : p3.z = r3 * dir 2 + p1.z := by
      simpa only [toVec_two, vadd_eq_add, Pi.add_apply, Pi.smul_apply,
        smul_eq_mul] using congrFun h3 2
    simp only [points_are_colinear, Bool.and_eq_true, beq_iff_eq, orient_3d,
      geo_sgn_eq_zero, det3x3]
    refine ⟨⟨⟨?_, ?_⟩, ?_⟩, ?_⟩ <;>
      · rw [e2x, e2y, e2z, e3x, e3y, e3z]
        ring

lemma OriQuad.get_set_self : ∀ (q : OriQuad) (f : ℕ) (v : Sign),
    (q.set f v).get f = v
  | _, 0, _ => rfl
  | _, 1, _ => rfl
  | _, 2, _ => rfl
  | _, _ + 3, _ => rfl

lemma OriQuad.get_set_ne (q : OriQuad) (f g : ℕ) (v : Sign) (hf : f < 4)
    (hg : g < 4) (hne : f ≠ g) : (q.set f v).get g = q.get g := by
  interval_cases f <;> interval_cases g <;> first | exact absurd rfl hne | rfl

lemma locate_facets_fst_allChecked (M : Mesh) (p : Pt3) (pv : PtQuad) (t : ℕ)
    (t_pred : Option ℕ) (f0 : ℕ) :
    ∀ (L : List ℕ) (ori ori' : OriQuad),
      (locate_facets M p pv t t_pred f0 ori L).1 = .allChecked ori' →
      ∀ f, f < 4 →
        (ori.get f ≠ .negative ∨ ∃ df ∈ L, (f0 + df) % 4 = f) →
        ori'.get f ≠ .negative := by
  intro L
  induction L with
  | nil =>
      intro ori ori' h f hf hd
      simp only [locate_facets] at h
      cases h
      rcases hd with hd | ⟨df, hmem, _⟩
      · exact hd
      · simp at hmem
  | cons df rest ih =>
      intro ori ori' h f hf hd
      simp only [locate_facets] at h
      split at h
      · simp at h
      · split at h
        · -- skip branch: facet back to t_pred, slot forced POSITIVE
          refine ih _ _ h f hf ?_
          by_cases hff : f = (f0 + df) % 4
          · subst hff
            exact Or.inl (by rw [OriQuad.get_set_self]; simp)
          · rcases hd with hd | ⟨df', hmem, heq⟩
            · exact Or.inl (by
                rw [OriQuad.get_set_ne _ _ _ _ (Nat.mod_lt _ (by norm_num)) hf
                  (fun hh => hff hh.symm)]
                exact hd)
            · rcases List.mem_cons.1 hmem with rfl | hmem'
              · exact absurd heq.symm hff
              · exact Or.inr ⟨df', hmem', heq⟩
        · split at h
          · -- non-negative orientation recorded, scan continues
            rename_i hcond
            refine ih _ _ h f hf ?_
            by_cases hff : f = (f0 + df) % 4
            · subst hff
              exact Or.inl (by rw [OriQuad.get_set_self]; exact hcond)
            · rcases hd with hd | ⟨df', hmem, heq⟩
              · exact Or.inl (by
                  rw [OriQuad.get_set_ne _ _ _ _ (Nat.mod_lt _ (by norm_num)) hf
                    (fun hh => hff hh.symm)]
                  exact hd)
              · rcases List.mem_cons.1 hmem with rfl | hmem'
                · exact absurd heq.symm hff
                · exact Or.inr ⟨df', hmem', heq⟩
          · split at h
            · simp at h
            · simp at h

lemma locate_facets_fst_foundVirtual (M : Mesh) (p : Pt3) (pv : PtQuad)
    (t : ℕ) (t_pred : Option ℕ) (f0 : ℕ) :
    ∀ (L : List ℕ) (ori : OriQuad) (u : ℕ),
      (locate_facets M p pv t t_pred f0 ori L).1 = .foundVirtual u →
      tet_is_virtual M u = true := by
  intro L
  induction L with
  | nil =>
      intro ori u h
      simp only [locate_facets] at h
      exact FacetOut.noConfusion h
  | cons df rest ih =>
      intro ori u h
      simp only [locate_facets] at h
      split at h
      · simp at h
      · split at h
        · exact ih _ _ h
        · split at h
          · exact ih _ _ h
          · split at h
            · rename_i hvirt
              simp only [Prod.fst] at h
              cases h
              exact hvirt
            · simp at h

lemma exists_facet_offset (f0 f : ℕ) (hf : f < 4) :
    ∃ df ∈ ([0, 1, 2, 3] : List ℕ), (f0 + df) % 4 = f := by
  refine ⟨(f + 4 - f0 % 4) % 4, ?_, ?_⟩
  · have h4 : (f + 4 - f0 % 4) % 4 < 4 := Nat.mod_lt _ (by norm_num)
    simp only [List.mem_cons, List.mem_singleton]
    omega
  · omega

lemma const_positive_get (f : ℕ) :
    (OriQuad.mk .positive .positive .positive .positive).get f = .positive := by
  match f with
  | 0 => rfl
  | 1 => rfl
  | 2 => rfl
  | _ + 3 => rfl

lemma locate_walk_found (M : Mesh) (p : Pt3) (randF : ℕ → ℕ) :
    ∀ (fuel t : ℕ) (t_pred : Option ℕ) (ori0 : OriQuad) (u : ℕ)
      (ori : OriQuad),
      locate_walk M p randF fuel t t_pred ori0 = .found u ori →
      (∀ f, f < 4 → ori.get f ≠ .negative) ∨
        (tet_is_virtual M u = true ∧ ∀ f, f < 4 → ori.get f = .positive) := by
  intro fuel
  induction fuel with
  | zero =>
      intro t t_pred ori0 u ori h
      simp only [locate_walk] at h
      exact LocateRes.noConfusion h
  | succ fuel ih =>
      intro t t_pred ori0 u ori h
      simp only [locate_walk] at h
      split at h
      · simp at h
      · rename_i heq
        cases h
        refine Or.inr ⟨?_, fun f _ => const_positive_get f⟩
        exact locate_facets_fst_foundVirtual M p _ _ _ _ _ _ _
          (by rw [heq])
      · rename_i heq
        cases h
        refine Or.inl fun f hf => ?_
        exact locate_facets_fst_allChecked M p _ _ _ _ _ _ _
          (by rw [heq]) f hf (Or.inr (exists_facet_offset _ f hf))
      · exact ih _ _ _ _ _ h

lemma scan_first_spec (nb : ℕ) (skip : ℕ → Bool) :
    ∀ (fuel j : ℕ), nb ≤ j + fuel → j ≤ nb →
      j ≤ scan_first nb skip fuel j ∧
      scan_first nb skip fuel j ≤ nb ∧
      (∀ k, j ≤ k → k < scan_first nb skip fuel j → skip k = true) ∧
      (scan_first nb skip fuel j < nb → skip (scan_first nb skip fuel j) = false) := by
  intro fuel
  induction fuel with
  | zero =>
      intro j h1 h2
      simp only [scan_first]
      exact ⟨le_refl j, h2,
        fun k hk1 hk2 => absurd (lt_of_le_of_lt hk1 hk2) (lt_irrefl j),
        fun hlt => absurd hlt (by omega)⟩
  | succ fuel ih =>
      intro j h1 h2
      simp only [scan_first]
      by_cases hj : j < nb
      · rw [if_pos hj]
        by_cases hs : skip j = true
        · rw [if_pos hs]
          obtain ⟨ih1, ih2, ih3, ih4⟩ := ih (j + 1) (by omega) (by omega)
          refine ⟨by omega, ih2, fun k hk1 hk2 => ?_, ih4⟩
          rcases eq_or_lt_of_le hk1 with rfl | hk
          · exact hs
          · exact ih3 k (by omega) hk2
        · rw [if_neg hs]
          exact ⟨le_refl j, by omega,
            fun k hk1 hk2 => absurd (lt_of_le_of_lt hk1 hk2) (lt_irrefl j),
            fun _ => by simpa using hs⟩
      · rw [if_neg hj]
        exact ⟨le_refl j, h2,
          fun k hk1 hk2 => absurd (lt_of_le_of_lt hk1 hk2) (lt_irrefl j),
          fun hlt => absurd hlt hj⟩

lemma orient_3d_swap23_pos {p0 p1 p2 p3 : Pt3}
    (h : orient_3d p0 p1 p2 p3 = .negative) :
    orient_3d p0 p1 p3 p2 = .positive := by
  unfold orient_3d at h ⊢
  have hd : det3x3
      (p1.x - p0.x) (p1.y - p0.y) (p1.z - p0.z)
      (p3.x - p0.x) (p3.y - p0.y) (p3.z - p0.z)
      (p2.x - p0.x) (p2.y - p0.y) (p2.z - p0.z) =
    -(det3x3
      (p1.x - p0.x) (p1.y - p0.y) (p1.z - p0.z)
      (p2.x - p0.x) (p2.y - p0.y) (p2.z - p0.z)
      (p3.x - p0.x) (p3.y - p0.y) (p3.z - p0.z)) := by
    simp only [det3x3]
    ring
  rw [hd]
  unfold geo_sgn at h ⊢
  split_ifs at h with h1 h2
  · split_ifs with g1 g2
    · exact absurd h1 (by linarith)
    · exact absurd h1 (by linarith)
    · rfl

set_option maxRecDepth 4000 in
lemma build_first_cells_eq (M : Mesh) (a b c d : ℕ)
    (hv : M.cell_to_v_store_ = #[]) (hc : M.cell_to_cell_store_ = #[])
    (hn : M.cell_next_ = #[]) (hm : M.marks = #[])
    (hf : M.first_free_ = .endOfList) :
    build_first_cells M a b c d =
      { M with
        cell_to_v_store_ := #[(Int.ofNat a), (Int.ofNat b), (Int.ofNat c), (Int.ofNat d), -1, (Int.ofNat d), (Int.ofNat c), (Int.ofNat b), -1, (Int.ofNat c), (Int.ofNat d), (Int.ofNat a), -1, (Int.ofNat b), (Int.ofNat a), (Int.ofNat d), -1, (Int.ofNat c), (Int.ofNat a), (Int.ofNat b)],
        cell_to_cell_store_ := #[Int.ofNat 1, Int.ofNat 2, Int.ofNat 3, Int.ofNat 4, Int.ofNat 0, Int.ofNat 4, Int.ofNat 3, Int.ofNat 2, Int.ofNat 0, Int.ofNat 3, Int.ofNat 4, Int.ofNat 1, Int.ofNat 0, Int.ofNat 2, Int.ofNat 1, Int.ofNat 4, Int.ofNat 0, Int.ofNat 3, Int.ofNat 1, Int.ofNat 2],
        cell_next_ := #[.notInList, .notInList, .notInList, .notInList, .notInList],
        marks := #[none, none, none, none, none] } := by
  rcases M with ⟨nv, verts, w, ki, hts, cv, cc, cn, ff_, cs, mk, onc, ocv, oca, nfc⟩
  simp only at hv hc hn hm hf
  subst hv
  subst hc
  subst hn
  subst hm
  subst hf
  have e00 : tet_facet_vertex 0 0 = 1 := rfl
  have e01 : tet_facet_vertex 0 1 = 2 := rfl
  have e02 : tet_facet_vertex 0 2 = 3 := rfl
  have e10 : tet_facet_vertex 1 0 = 0 := rfl
  have e11 : tet_facet_vertex 1 1 = 3 := rfl
  have e12 : tet_facet_vertex 1 2 = 2 := rfl
  have e20 : tet_facet_vertex 2 0 = 3 := rfl
  have e21 : tet_facet_vertex 2 1 = 0 := rfl
  have e22 : tet_facet_vertex 2 2 = 1 := rfl
  have e30 : tet_facet_vertex 3 0 = 1 := rfl
  have e31 : tet_facet_vertex 3 1 = 0 := rfl
  have e32 : tet_facet_vertex 3 2 = 2 := rfl
  have h0 : new_tetrahedron ⟨nv, verts, w, ki, hts, #[], #[], #[], .endOfList, cs, #[], onc, ocv, oca, nfc⟩ (Int.ofNat a) (Int.ofNat b) (Int.ofNat c) (Int.ofNat d) = (0, ⟨nv, verts, w, ki, hts, #[(Int.ofNat a), (Int.ofNat b), (Int.ofNat c), (Int.ofNat d)], #[-1, -1, -1, -1], #[.notInList], .endOfList, cs, #[none], onc, ocv, oca, nfc⟩) := rfl
  have h1 : new_tetrahedron ⟨nv, verts, w, ki, hts, #[(Int.ofNat a), (Int.ofNat b), (Int.ofNat c), (Int.ofNat d)], #[-1, -1, -1, -1], #[.notInList], .endOfList, cs, #[none], onc, ocv, oca, nfc⟩ (-1) (tet_vertex ⟨nv, verts, w, ki, hts, #[(Int.ofNat a), (Int.ofNat b), (Int.ofNat c), (Int.ofNat d)], #[-1, -1, -1, -1], #[.notInList], .endOfList, cs, #[none], onc, ocv, oca, nfc⟩ 0 3) (tet_vertex ⟨nv, verts, w, ki, hts, #[(Int.ofNat a), (Int.ofNat b), (Int.ofNat c), (Int.ofNat d)], #[-1, -1, -1, -1], #[.notInList], .endOfList, cs, #[none], onc, ocv, oca, nfc⟩ 0 2) (tet_vertex ⟨nv, verts, w, ki, hts, #[(Int.ofNat a), (Int.ofNat b), (Int.ofNat c), (Int.ofNat d)], #[-1, -1, -1, -1], #[.notInList], .endOfList, cs, #[none], onc, ocv, oca, nfc⟩ 0 1) = (1, ⟨nv, verts, w, ki, hts, #[(Int.ofNat a), (Int.ofNat b), (Int.ofNat c), (Int.ofNat d), -1, (Int.ofNat d), (Int.ofNat c), (Int.ofNat b)], #[-1, -1, -1, -1, -1, -1, -1, -1], #[.notInList, .notInList], .endOfList, cs, #[none, none], onc, ocv, oca, nfc⟩) := rfl
  have h2 : new_tetrahedron ⟨nv, verts, w, ki, hts, #[(Int.ofNat a), (Int.ofNat b), (Int.ofNat c), (Int.ofNat d), -1, (Int.ofNat d), (Int.ofNat c), (Int.ofNat b)], #[-1, -1, -1, -1, -1, -1, -1, -1], #[.notInList, .notInList], .endOfList, cs, #[none, none], onc, ocv, oca, nfc⟩ (-1) (tet_vertex ⟨nv, verts, w, ki, hts, #[(Int.ofNat a), (Int.ofNat b), (Int.ofNat c), (Int.ofNat d), -1, (Int.ofNat d), (Int.ofNat c), (Int.ofNat b)], #[-1, -1, -1, -1, -1, -1, -1, -1], #[.notInList, .notInList], .endOfList, cs, #[none, none], onc, ocv, oca, nfc⟩ 0 2) (tet_vertex ⟨nv, verts, w, ki, hts, #[(Int.ofNat a), (Int.ofNat b), (Int.ofNat c), (Int.ofNat d), -1, (Int.ofNat d), (Int.ofNat c), (Int.ofNat b)], #[-1, -1, -1, -1, -1, -1, -1, -1], #[.notInList, .notInList], .endOfList, cs, #[none, none], onc, ocv, oca, nfc⟩ 0 3) (tet_vertex ⟨nv, verts, w, ki, hts, #[(Int.ofNat a), (Int.ofNat b), (Int.ofNat c), (Int.ofNat d), -1, (Int.ofNat d), (Int.ofNat c), (Int.ofNat b)], #[-1, -1, -1, -1, -1, -1, -1, -1], #[.notInList, .notInList], .endOfList, cs, #[none, none], onc, ocv, oca, nfc⟩ 0 0) = (2, ⟨nv, verts, w, ki, hts, #[(Int.ofNat a), (Int.ofNat b), (Int.ofNat c), (Int.ofNat d), -1, (Int.ofNat d), (Int.ofNat c), (Int.ofNat b), -1, (Int.ofNat c), (Int.ofNat d), (Int.ofNat a)], #[-1, -1, -1, -1, -1, -1, -1, -1, -1, -1, -1, -1], #[.notInList, .notInList, .notInList], .endOfList, cs, #[none, none, none], onc, ocv, oca, nfc⟩) := rfl
  have h3 : new_tetrahedron ⟨nv, verts, w, ki, hts, #[(Int.ofNat a), (Int.ofNat b), (Int.ofNat c), (Int.ofNat d), -1, (Int.ofNat d), (Int.ofNat c), (Int.ofNat b), -1, (Int.ofNat c), (Int.ofNat d), (Int.ofNat a)], #[-1, -1, -1, -1, -1, -1, -1, -1, -1, -1, -1, -1], #[.notInList, .notInList, .notInList], .endOfList, cs, #[none, none, none], onc, ocv, oca, nfc⟩ (-1) (tet_vertex ⟨nv, verts, w, ki, hts, #[(Int.ofNat a), (Int.ofNat b), (Int.ofNat c), (Int.ofNat d), -1, (Int.ofNat d), (Int.ofNat c), (Int.ofNat b), -1, (Int.ofNat c), (Int.ofNat d), (Int.ofNat a)], #[-1, -1, -1, -1, -1, -1, -1, -1, -1, -1, -1, -1], #[.notInList, .notInList, .notInList], .endOfList, cs, #[none, none, none], onc, ocv, oca, nfc⟩ 0 1) (tet_vertex ⟨nv, verts, w, ki, hts, #[(Int.ofNat a), (Int.ofNat b), (Int.ofNat c), (Int.ofNat d), -1, (Int.ofNat d), (Int.ofNat c), (Int.ofNat b), -1, (Int.ofNat c), (Int.ofNat d), (Int.ofNat a)], #[-1, -1, -1, -1, -1, -1, -1, -1, -1, -1, -1, -1], #[.notInList, .notInList, .notInList], .endOfList, cs, #[none, none, none], onc, ocv, oca, nfc⟩ 0 0) (tet_vertex ⟨nv, verts, w, ki, hts, #[(Int.ofNat a), (Int.ofNat b), (Int.ofNat c), (Int.ofNat d), -1, (Int.ofNat d), (Int.ofNat c), (Int.ofNat b), -1, (Int.ofNat c), (Int.ofNat d), (Int.ofNat a)], #[-1, -1, -1, -1, -1, -1, -1, -1, -1, -1, -1, -1], #[.notInList, .notInList, .notInList], .endOfList, cs, #[none, none, none], onc, ocv, oca, nfc⟩ 0 3) = (3, ⟨nv, verts, w, ki, hts, #[(Int.ofNat a), (Int.ofNat b), (Int.ofNat c), (Int.ofNat d), -1, (Int.ofNat d), (Int.ofNat c), (Int.ofNat b), -1, (Int.ofNat c), (Int.ofNat d), (Int.ofNat a), -1, (Int.ofNat b), (Int.ofNat a), (Int.ofNat d)], #[-1, -1, -1, -1, -1, -1, -1, -1, -1, -1, -1, -1, -1, -1, -1, -1], #[.notInList, .notInList, .notInList, .notInList], .endOfList, cs, #[none, none, none, none], onc, ocv, oca, nfc⟩) := rfl
  have h4 : new_tetrahedron ⟨nv, verts, w, ki, hts, #[(Int.ofNat a), (Int.ofNat b), (Int.ofNat c), (Int.ofNat d), -1, (Int.ofNat d), (Int.ofNat c), (Int.ofNat b), -1, (Int.ofNat c), (Int.ofNat d), (Int.ofNat a), -1, (Int.ofNat b), (Int.ofNat a), (Int.ofNat d)], #[-1, -1, -1, -1, -1, -1, -1, -1, -1, -1, -1, -1, -1, -1, -1, -1], #[.notInList, .notInList, .notInList, .notInList], .endOfList, cs, #[none, none, none, none], onc, ocv, oca, nfc⟩ (-1) (tet_vertex ⟨nv, verts, w, ki, hts, #[(Int.ofNat a), (Int.ofNat b), (Int.ofNat c), (Int.ofNat d), -1, (Int.ofNat d), (Int.ofNat c), (Int.ofNat b), -1, (Int.ofNat c), (Int.ofNat d), (Int.ofNat a), -1, (Int.ofNat b), (Int.ofNat a), (Int.ofNat d)], #[-1, -1, -1, -1, -1, -1, -1, -1, -1, -1, -1, -1, -1, -1, -1, -1], #[.notInList, .notInList, .notInList, .notInList], .endOfList, cs, #[none, none, none, none], onc, ocv, oca, nfc⟩ 0 2) (tet_vertex ⟨nv, verts, w, ki, hts, #[(Int.ofNat a), (Int.ofNat b), (Int.ofNat c), (Int.ofNat d), -1, (Int.ofNat d), (Int.ofNat c), (Int.ofNat b), -1, (Int.ofNat c), (Int.ofNat d), (Int.ofNat a), -1, (Int.ofNat b), (Int.ofNat a), (Int.ofNat d)], #[-1, -1, -1, -1, -1, -1, -1, -1, -1, -1, -1, -1, -1, -1, -1, -1], #[.notInList, .notInList, .notInList, .notInList], .endOfList, cs, #[none, none, none, none], onc, ocv, oca, nfc⟩ 0 0) (tet_vertex ⟨nv, verts, w, ki, hts, #[(Int.ofNat a), (Int.ofNat b), (Int.ofNat c), (Int.ofNat d), -1, (Int.ofNat d), (Int.ofNat c), (Int.ofNat b), -1, (Int.ofNat c), (Int.ofNat d), (Int.ofNat a), -1, (Int.ofNat b), (Int.ofNat a), (Int.ofNat d)], #[-1, -1, -1, -1, -1, -1, -1, -1, -1, -1, -1, -1, -1, -1, -1, -1], #[.notInList, .notInList, .notInList, .notInList], .endOfList, cs, #[none, none, none, none], onc, ocv, oca, nfc⟩ 0 1) = (4, ⟨nv, verts, w, ki, hts, #[(Int.ofNat a), (Int.ofNat b), (Int.ofNat c), (Int.ofNat d), -1, (Int.ofNat d), (Int.ofNat c), (Int.ofNat b), -1, (Int.ofNat c), (Int.ofNat d), (Int.ofNat a), -1, (Int.ofNat b), (Int.ofNat a), (Int.ofNat d), -1, (Int.ofNat c), (Int.ofNat a), (Int.ofNat b)], #[-1, -1, -1, -1, -1, -1, -1, -1, -1, -1, -1, -1, -1, -1, -1, -1, -1, -1, -1, -1], #[.notInList, .notInList, .notInList, .notInList, .notInList], .endOfList, cs, #[none, none, none, none, none], onc, ocv, oca, nfc⟩) := rfl
  have hL0 : set_tet_adjacent (set_tet_adjacent ⟨nv, verts, w, ki, hts, #[(Int.ofNat a), (Int.ofNat b), (Int.ofNat c), (Int.ofNat d), -1, (Int.ofNat d), (Int.ofNat c), (Int.ofNat b), -1, (Int.ofNat c), (Int.ofNat d), (Int.ofNat a), -1, (Int.ofNat b), (Int.ofNat a), (Int.ofNat d), -1, (Int.ofNat c), (Int.ofNat a), (Int.ofNat b)], #[-1, -1, -1, -1, -1, -1, -1, -1, -1, -1, -1, -1, -1, -1, -1, -1, -1, -1, -1, -1], #[.notInList, .notInList, .notInList, .notInList, .notInList], .endOfList, cs, #[none, none, none, none, none], onc, ocv, oca, nfc⟩ 1 0 0) 0 0 1 = ⟨nv, verts, w, ki, hts, #[(Int.ofNat a), (Int.ofNat b), (Int.ofNat c), (Int.ofNat d), -1, (Int.ofNat d), (Int.ofNat c), (Int.ofNat b), -1, (Int.ofNat c), (Int.ofNat d), (Int.ofNat a), -1, (Int.ofNat b), (Int.ofNat a), (Int.ofNat d), -1, (Int.ofNat c), (Int.ofNat a), (Int.ofNat b)], #[Int.ofNat 1, -1, -1, -1, Int.ofNat 0, -1, -1, -1, -1, -1, -1, -1, -1, -1, -1, -1, -1, -1, -1, -1], #[.notInList, .notInList, .notInList, .notInList, .notInList], .endOfList, cs, #[none, none, none, none, none], onc, ocv, oca, nfc⟩ := rfl
  have hL1 : set_tet_adjacent (set_tet_adjacent ⟨nv, verts, w, ki, hts, #[(Int.ofNat a), (Int.ofNat b), (Int.ofNat c), (Int.ofNat d), -1, (Int.ofNat d), (Int.ofNat c), (Int.ofNat b), -1, (Int.ofNat c), (Int.ofNat d), (Int.ofNat a), -1, (Int.ofNat b), (Int.ofNat a), (Int.ofNat d), -1, (Int.ofNat c), (Int.ofNat a), (Int.ofNat b)], #[Int.ofNat 1, -1, -1, -1, Int.ofNat 0, -1, -1, -1, -1, -1, -1, -1, -1, -1, -1, -1, -1, -1, -1, -1], #[.notInList, .notInList, .notInList, .notInList, .notInList], .endOfList, cs, #[none, none, none, none, none], onc, ocv, oca, nfc⟩ 2 0 0) 0 1 2 = ⟨nv, verts, w, ki, hts, #[(Int.ofNat a), (Int.ofNat b), (Int.ofNat c), (Int.ofNat d), -1, (Int.ofNat d), (Int.ofNat c), (Int.ofNat b), -1, (Int.ofNat c), (Int.ofNat d), (Int.ofNat a), -1, (Int.ofNat b), (Int.ofNat a), (Int.ofNat d), -1, (Int.ofNat c), (Int.ofNat a), (Int.ofNat b)], #[Int.ofNat 1, Int.ofNat 2, -1, -1, Int.ofNat 0, -1, -1, -1, Int.ofNat 0, -1, -1, -1, -1, -1, -1, -1, -1, -1, -1, -1], #[.notInList, .notInList, .notInList, .notInList, .notInList], .endOfList, cs, #[none, none, none, none, none], onc, ocv, oca, nfc⟩ := rfl
  have hL2 : set_tet_adjacent (set_tet_adjacent ⟨nv, verts, w, ki, hts, #[(Int.ofNat a), (Int.ofNat b), (Int.ofNat c), (Int.ofNat d), -1, (Int.ofNat d), (Int.ofNat c), (Int.ofNat b), -1, (Int.ofNat c), (Int.ofNat d), (Int.ofNat a), -1, (Int.ofNat b), (Int.ofNat a), (Int.ofNat d), -1, (Int.ofNat c), (Int.ofNat a), (Int.ofNat b)], #[Int.ofNat 1, Int.ofNat 2, -1, -1, Int.ofNat 0, -1, -1, -1, Int.ofNat 0, -1, -1, -1, -1, -1, -1, -1, -1, -1, -1, -1], #[.notInList, .notInList, .notInList, .notInList, .notInList], .endOfList, cs, #[none, none, none, none, none], onc, ocv, oca, nfc⟩ 3 0 0) 0 2 3 = ⟨nv, verts, w, ki, hts, #[(Int.ofNat a), (Int.ofNat b), (Int.ofNat c), (Int.ofNat d), -1, (Int.ofNat d), (Int.ofNat c), (Int.ofNat b), -1, (Int.ofNat c), (Int.ofNat d), (Int.ofNat a), -1, (Int.ofNat b), (Int.ofNat a), (Int.ofNat d), -1, (Int.ofNat c), (Int.ofNat a), (Int.ofNat b)], #[Int.ofNat 1, Int.ofNat 2, Int.ofNat 3, -1, Int.ofNat 0, -1, -1, -1, Int.ofNat 0, -1, -1, -1, Int.ofNat 0, -1, -1, -1, -1, -1, -1, -1], #[.notInList, .notInList, .notInList, .notInList, .notInList], .endOfList, cs, #[none, none, none, none, none], onc, ocv, oca, nfc⟩ := rfl
  have hL3 : set_tet_adjacent (set_tet_adjacent ⟨nv, verts, w, ki, hts, #[(Int.ofNat a), (Int.ofNat b), (Int.ofNat c), (Int.ofNat d), -1, (Int.ofNat d), (Int.ofNat c), (Int.ofNat b), -1, (Int.ofNat c), (Int.ofNat d), (Int.ofNat a), -1, (Int.ofNat b), (Int.ofNat a), (Int.ofNat d), -1, (Int.ofNat c), (Int.ofNat a), (Int.ofNat b)], #[Int.ofNat 1, Int.ofNat 2, Int.ofNat 3, -1, Int.ofNat 0, -1, -1, -1, Int.ofNat 0, -1, -1, -1, Int.ofNat 0, -1, -1, -1, -1, -1, -1, -1], #[.notInList, .notInList, .notInList, .notInList, .notInList], .endOfList, cs, #[none, none, none, none, none], onc, ocv, oca, nfc⟩ 4 0 0) 0 3 4 = ⟨nv, verts, w, ki, hts, #[(Int.ofNat a), (Int.ofNat b), (Int.ofNat c), (Int.ofNat d), -1, (Int.ofNat d), (Int.ofNat c), (Int.ofNat b), -1, (Int.ofNat c), (Int.ofNat d), (Int.ofNat a), -1, (Int.ofNat b), (Int.ofNat a), (Int.ofNat d), -1, (Int.ofNat c), (Int.ofNat a), (Int.ofNat b)], #[Int.ofNat 1, Int.ofNat 2, Int.ofNat 3, Int.ofNat 4, Int.ofNat 0, -1, -1, -1, Int.ofNat 0, -1, -1, -1, Int.ofNat 0, -1, -1, -1, Int.ofNat 0, -1, -1, -1], #[.notInList, .notInList, .notInList, .notInList, .notInList], .endOfList, cs, #[none, none, none, none, none], onc, ocv, oca, nfc⟩ := rfl
  have hI0 : set_tet_adjacent (set_tet_adjacent (set_tet_adjacent ⟨nv, verts, w, ki, hts, #[(Int.ofNat a), (Int.ofNat b), (Int.ofNat c), (Int.ofNat d), -1, (Int.ofNat d), (Int.ofNat c), (Int.ofNat b), -1, (Int.ofNat c), (Int.ofNat d), (Int.ofNat a), -1, (Int.ofNat b), (Int.ofNat a), (Int.ofNat d), -1, (Int.ofNat c), (Int.ofNat a), (Int.ofNat b)], #[Int.ofNat 1, Int.ofNat 2, Int.ofNat 3, Int.ofNat 4, Int.ofNat 0, -1, -1, -1, Int.ofNat 0, -1, -1, -1, Int.ofNat 0, -1, -1, -1, Int.ofNat 0, -1, -1, -1], #[.notInList, .notInList, .notInList, .notInList, .notInList], .endOfList, cs, #[none, none, none, none, none], onc, ocv, oca, nfc⟩ 1 1 4) 1 2 3) 1 3 2 = ⟨nv, verts, w, ki, hts, #[(Int.ofNat a), (Int.ofNat b), (Int.ofNat c), (Int.ofNat d), -1, (Int.ofNat d), (Int.ofNat c), (Int.ofNat b), -1, (Int.ofNat c), (Int.ofNat d), (Int.ofNat a), -1, (Int.ofNat b), (Int.ofNat a), (Int.ofNat d), -1, (Int.ofNat c), (Int.ofNat a), (Int.ofNat b)], #[Int.ofNat 1, Int.ofNat 2, Int.ofNat 3, Int.ofNat 4, Int.ofNat 0, Int.ofNat 4, Int.ofNat 3, Int.ofNat 2, Int.ofNat 0, -1, -1, -1, Int.ofNat 0, -1, -1, -1, Int.ofNat 0, -1, -1, -1], #[.notInList, .notInList, .notInList, .notInList, .notInList], .endOfList, cs, #[none, none, none, none, none], onc, ocv, oca, nfc⟩ := rfl
  have hI1 : set_tet_adjacent (set_tet_adjacent (set_tet_adjacent ⟨nv, verts, w, ki, hts, #[(Int.ofNat a), (Int.ofNat b), (Int.ofNat c), (Int.ofNat d), -1, (Int.ofNat d), (Int.ofNat c), (Int.ofNat b), -1, (Int.ofNat c), (Int.ofNat d), (Int.ofNat a), -1, (Int.ofNat b), (Int.ofNat a), (Int.ofNat d), -1, (Int.ofNat c), (Int.ofNat a), (Int.ofNat b)], #[Int.ofNat 1, Int.ofNat 2, Int.ofNat 3, Int.ofNat 4, Int.ofNat 0, Int.ofNat 4, Int.ofNat 3, Int.ofNat 2, Int.ofNat 0, -1, -1, -1, Int.ofNat 0, -1, -1, -1, Int.ofNat 0, -1, -1, -1], #[.notInList, .notInList, .notInList, .notInList, .notInList], .endOfList, cs, #[none, none, none, none, none], onc, ocv, oca, nfc⟩ 2 1 3) 2 2 4) 2 3 1 = ⟨nv, verts, w, ki, hts, #[(Int.ofNat a), (Int.ofNat b), (Int.ofNat c), (Int.ofNat d), -1, (Int.ofNat d), (Int.ofNat c), (Int.ofNat b), -1, (Int.ofNat c), (Int.ofNat d), (Int.ofNat a), -1, (Int.ofNat b), (Int.ofNat a), (Int.ofNat d), -1, (Int.ofNat c), (Int.ofNat a), (Int.ofNat b)], #[Int.ofNat 1, Int.ofNat 2, Int.ofNat 3, Int.ofNat 4, Int.ofNat 0, Int.ofNat 4, Int.ofNat 3, Int.ofNat 2, Int.ofNat 0, Int.ofNat 3, Int.ofNat 4, Int.ofNat 1, Int.ofNat 0, -1, -1, -1, Int.ofNat 0, -1, -1, -1], #[.notInList, .notInList, .notInList, .notInList, .notInList], .endOfList, cs, #[none, none, none, none, none], onc, ocv, oca, nfc⟩ := rfl
  have hI2 : set_tet_adjacent (set_tet_adjacent (set_tet_adjacent ⟨nv, verts, w, ki, hts, #[(Int.ofNat a), (Int.ofNat b), (Int.ofNat c), (Int.ofNat d), -1, (Int.ofNat d), (Int.ofNat c), (Int.ofNat b), -1, (Int.ofNat c), (Int.ofNat d), (Int.ofNat a), -1, (Int.ofNat b), (Int.ofNat a), (Int.ofNat d), -1, (Int.ofNat c), (Int.ofNat a), (Int.ofNat b)], #[Int.ofNat 1, Int.ofNat 2, Int.ofNat 3, Int.ofNat 4, Int.ofNat 0, Int.ofNat 4, Int.ofNat 3, Int.ofNat 2, Int.ofNat 0, Int.ofNat 3, Int.ofNat 4, Int.ofNat 1, Int.ofNat 0, -1, -1, -1, Int.ofNat 0, -1, -1, -1], #[.notInList, .notInList, .notInList, .notInList, .notInList], .endOfList, cs, #[none, none, none, none, none], onc, ocv, oca, nfc⟩ 3 1 2) 3 2 1) 3 3 4 = ⟨nv, verts, w, ki, hts, #[(Int.ofNat a), (Int.ofNat b), (Int.ofNat c), (Int.ofNat d), -1, (Int.ofNat d), (Int.ofNat c), (Int.ofNat b), -1, (Int.ofNat c), (Int.ofNat d), (Int.ofNat a), -1, (Int.ofNat b), (Int.ofNat a), (Int.ofNat d), -1, (Int.ofNat c), (Int.ofNat a), (Int.ofNat b)], #[Int.ofNat 1, Int.ofNat 2, Int.ofNat 3, Int.ofNat 4, Int.ofNat 0, Int.ofNat 4, Int.ofNat 3, Int.ofNat 2, Int.ofNat 0, Int.ofNat 3, Int.ofNat 4, Int.ofNat 1, Int.ofNat 0, Int.ofNat 2, Int.ofNat 1, Int.ofNat 4, Int.ofNat 0, -1, -1, -1], #[.notInList, .notInList, .notInList, .notInList, .notInList], .endOfList, cs, #[none, none, none, none, none], onc, ocv, oca, nfc⟩ := rfl
  have hI3 : set_tet_adjacent (set_tet_adjacent (set_tet_adjacent ⟨nv, verts, w, ki, hts, #[(Int.ofNat a), (Int.ofNat b), (Int.ofNat c), (Int.ofNat d), -1, (Int.ofNat d), (Int.ofNat c), (Int.ofNat b), -1, (Int.ofNat c), (Int.ofNat d), (Int.ofNat a), -1, (Int.ofNat b), (Int.ofNat a), (Int.ofNat d), -1, (Int.ofNat c), (Int.ofNat a), (Int.ofNat b)], #[Int.ofNat 1, Int.ofNat 2, Int.ofNat 3, Int.ofNat 4, Int.ofNat 0, Int.ofNat 4, Int.ofNat 3, Int.ofNat 2, Int.ofNat 0, Int.ofNat 3, Int.ofNat 4, Int.ofNat 1, Int.ofNat 0, Int.ofNat 2, Int.ofNat 1, Int.ofNat 4, Int.ofNat 0, -1, -1, -1], #[.notInList, .notInList, .notInList, .notInList, .notInList], .endOfList, cs, #[none, none, none, none, none], onc, ocv, oca, nfc⟩ 4 1 3) 4 2 1) 4 3 2 = ⟨nv, verts, w, ki, hts, #[(Int.ofNat a), (Int.ofNat b), (Int.ofNat c), (Int.ofNat d), -1, (Int.ofNat d), (Int.ofNat c), (Int.ofNat b), -1, (Int.ofNat c), (Int.ofNat d), (Int.ofNat a), -1, (Int.ofNat b), (Int.ofNat a), (Int.ofNat d), -1, (Int.ofNat c), (Int.ofNat a), (Int.ofNat b)], #[Int.ofNat 1, Int.ofNat 2, Int.ofNat 3, Int.ofNat 4, Int.ofNat 0, Int.ofNat 4, Int.ofNat 3, Int.ofNat 2, Int.ofNat 0, Int.ofNat 3, Int.ofNat 4, Int.ofNat 1, Int.ofNat 0, Int.ofNat 2, Int.ofNat 1, Int.ofNat 4, Int.ofNat 0, Int.ofNat 3, Int.ofNat 1, Int.ofNat 2], #[.notInList, .notInList, .notInList, .notInList, .notInList], .endOfList, cs, #[none, none, none, none, none], onc, ocv, oca, nfc⟩ := rfl
  simp only [build_first_cells, e00, e01, e02, e10, e11, e12, e20, e21, e22, e30, e31, e32, h0, h1, h2, h3, h4, hL0, hL1, hL2, hL3, hI0, hI1, hI2, hI3]

/-- C2: `locate` returns either a cell whose four reported orientation signs
are all non-negative (the cell containing `p`), or — when the walk crosses a
negative facet into a virtual cell — that virtual cell with all four
orientation slots forced `POSITIVE`; and the facet leading back to the
immediately preceding cell is skipped without an orientation-predicate call,
its slot reported `POSITIVE` (the full equation between the facet loop with
and without that facet, predicate-call count included). -/
theorem locate_contract :
    ∀ (M : Mesh) (p : Pt3) (hint : Option ℕ) (ori0 : OriQuad)
      (randH randF : ℕ → ℕ) (fa fb fc fd : ℕ) (u : ℕ) (ori : OriQuad),
      locate M p hint ori0 randH randF fa fb fc fd = .found u ori →
      ((∀ f, f < 4 → ori.get f ≠ .negative) ∨
        (tet_is_virtual M u = true ∧ ∀ f, f < 4 → ori.get f = .positive)) ∧
      (∀ (pv : PtQuad) (t : ℕ) (t_pred : Option ℕ) (f0 : ℕ) (oriA : OriQuad)
          (df : ℕ) (rest : List ℕ),
        tet_adjacent M t ((f0 + df) % 4) ≠ -1 →
        some ((tet_adjacent M t ((f0 + df) % 4)).toNat) = t_pred →
        locate_facets M p pv t t_pred f0 oriA (df :: rest) =
          locate_facets M p pv t t_pred f0
            (oriA.set ((f0 + df) % 4) .positive) rest) := by
  intro M p hint ori0 randH randF fa fb fc fd u ori h
  constructor
  · unfold locate at h
    split at h
    · simp at h
    · exact locate_walk_found M p randF _ _ _ _ _ _ h
    · split at h
      · simp at h
      · exact locate_walk_found M p randF _ _ _ _ _ _ h
  · intro pv t t_pred f0 oriA df rest h1 h2
    subst h2
    simp only [locate_facets, if_neg h1, beq_self_eq_true, if_true]

/-- C2 witness: on the 5-cell sample mesh, locating the interior point
`(1,1,1)` from hint cell `0` returns cell `0` with four `POSITIVE` signs. -/
theorem locate_contract_witness :
    ((∀ f, f < 4 →
        (OriQuad.mk .positive .positive .positive .positive).get f ≠ .negative) ∨
      (tet_is_virtual sample_mesh5 0 = true ∧
        ∀ f, f < 4 →
          (OriQuad.mk .positive .positive .positive .positive).get f = .positive)) ∧
    (∀ (pv : PtQuad) (t : ℕ) (t_pred : Option ℕ) (f0 : ℕ) (oriA : OriQuad)
        (df : ℕ) (rest : List ℕ),
      tet_adjacent sample_mesh5 t ((f0 + df) % 4) ≠ -1 →
      some ((tet_adjacent sample_mesh5 t ((f0 + df) % 4)).toNat) = t_pred →
      locate_facets sample_mesh5 ⟨1, 1, 1⟩ pv t t_pred f0 oriA (df :: rest) =
        locate_facets sample_mesh5 ⟨1, 1, 1⟩ pv t t_pred f0
          (oriA.set ((f0 + df) % 4) .positive) rest) :=
  locate_contract sample_mesh5 ⟨1, 1, 1⟩ (some 0) ⟨.zero, .zero, .zero, .zero⟩
    (fun _ => 0) (fun _ => 0) 5 5 5 5 0
    ⟨.positive, .positive, .positive, .positive⟩ (by rfl)

lemma locate_facets_unset (M : Mesh) (p : Pt3) (pv : PtQuad) (t : ℕ)
    (t_pred : Option ℕ) (f0 : ℕ) (ori : OriQuad) (df : ℕ) (rest : List ℕ)
    (h : tet_adjacent M t ((f0 + df) % 4) = -1) :
    locate_facets M p pv t t_pred f0 ori (df :: rest) = (.notFound, 0) := by
  simp [locate_facets, h]

lemma locate_walk_unset (M : Mesh) (p : Pt3) (randF : ℕ → ℕ) (fuel t : ℕ)
    (t_pred : Option ℕ) (ori : OriQuad)
    (h : tet_adjacent M t (randF fuel % 4) = -1) :
    locate_walk M p randF (fuel + 1) t t_pred ori = .notFound := by
  simp only [locate_walk]
  have h' : tet_adjacent M t ((randF fuel % 4 + 0) % 4) = -1 := by
    rw [show (randF fuel % 4 + 0) % 4 = randF fuel % 4 from by omega]
    exact h
  rw [locate_facets_unset M p (tet_points M t) t t_pred (randF fuel % 4) ori 0
    [1, 2, 3] h']

lemma iw_facets_unset (M : Mesh) (p : Pt3) (pv : PtQuad) (t : ℕ)
    (t_pred : Option ℕ) (mi f : ℕ) (rest : List ℕ)
    (h : tet_adjacent M t f = -1) :
    iw_facets M p pv t t_pred mi (f :: rest) = .notFound := by
  simp [iw_facets, h]

lemma ilocate_walk_unset (M : Mesh) (p : Pt3) (fuel t : ℕ)
    (t_pred : Option ℕ) (mi : ℕ) (h : tet_adjacent M t 0 = -1) :
    locate_inexact_walk M p (fuel + 1) t t_pred mi = some none := by
  simp only [locate_inexact_walk]
  rw [iw_facets_unset M p (tet_points M t) t t_pred mi 0 [1, 2, 3] h]

/-- C8: whenever the walk of `locate` (or of `locate_inexact`) examines a
facet whose neighbor slot is unset (`-1`, as in a finalized mesh from which
the infinite cells were stripped), the routine terminates and returns
`NO_TETRAHEDRON` — stated at the facet-loop level (for the facet currently
examined) and at the walk level (for the first facet of a round). -/
theorem locate_unset_neighbor :
    (∀ (M : Mesh) (p : Pt3) (pv : PtQuad) (t : ℕ) (t_pred : Option ℕ)
        (f0 : ℕ) (ori : OriQuad) (df : ℕ) (rest : List ℕ),
      tet_adjacent M t ((f0 + df) % 4) = -1 →
      locate_facets M p pv t t_pred f0 ori (df :: rest) = (.notFound, 0)) ∧
    (∀ (M : Mesh) (p : Pt3) (randF : ℕ → ℕ) (fuel t : ℕ) (t_pred : Option ℕ)
        (ori : OriQuad),
      tet_adjacent M t (randF fuel % 4) = -1 →
      locate_walk M p randF (fuel + 1) t t_pred ori = .notFound) ∧
    (∀ (M : Mesh) (p : Pt3) (pv : PtQuad) (t : ℕ) (t_pred : Option ℕ)
        (mi f : ℕ) (rest : List ℕ),
      tet_adjacent M t f = -1 →
      iw_facets M p pv t t_pred mi (f :: rest) = .notFound) ∧
    (∀ (M : Mesh) (p : Pt3) (fuel t : ℕ) (t_pred : Option ℕ) (mi : ℕ),
      tet_adjacent M t 0 = -1 →
      locate_inexact_walk M p (fuel + 1) t t_pred mi = some none) :=
  ⟨fun M p pv t t_pred f0 ori df rest h =>
      locate_facets_unset M p pv t t_pred f0 ori df rest h,
   fun M p randF fuel t t_pred ori h =>
      locate_walk_unset M p randF fuel t t_pred ori h,
   fun M p pv t t_pred mi f rest h =>
      iw_facets_unset M p pv t t_pred mi f rest h,
   fun M p fuel t t_pred mi h => ilocate_walk_unset M p fuel t t_pred mi h⟩

/-- C8 witness: on the finalized stripped sample mesh (one real cell, all
four neighbor slots `-1`) both walks stop with "not found". -/
theorem locate_unset_neighbor_witness :
    locate_walk stripped_mesh ⟨1, 1, 1⟩ (fun _ => 0) 1 0 none
        ⟨.zero, .zero, .zero, .zero⟩ = .notFound ∧
    locate_inexact_walk stripped_mesh ⟨1, 1, 1⟩ 1 0 none 2500 = some none :=
  ⟨locate_unset_neighbor.2.1 stripped_mesh ⟨1, 1, 1⟩ (fun _ => 0) 0 0 none
      ⟨.zero, .zero, .zero, .zero⟩ (by rfl),
   locate_unset_neighbor.2.2.2 stripped_mesh ⟨1, 1, 1⟩ 0 0 none 2500 (by rfl)⟩

lemma add_tet_to_list_first_ne (M : Mesh) (t : ℕ) (first last : Option ℕ)
    (h : first ≠ none) : (add_tet_to_list M t first last).2.1 ≠ none := by
  cases last
  · simp [add_tet_to_list]
  · simpa [add_tet_to_list] using h

lemma fcz_rec_first_mono (conflict : Mesh → ℕ → Pt3 → Bool) (p : Pt3) :
    ∀ (fuel : ℕ) (st : FCZState) (t : ℕ) (lfs : List ℕ) (st' : FCZState),
      find_conflict_zone_recursive conflict p fuel st t lfs = some st' →
      st.first ≠ none → st'.first ≠ none := by
  intro fuel
  induction fuel with
  | zero =>
      intro st t lfs st' h _
      simp only [find_conflict_zone_recursive] at h
      exact Option.noConfusion h
  | succ fuel ih =>
      intro st t lfs st' h hf
      cases lfs with
      | nil =>
          simp only [find_conflict_zone_recursive, Option.some.injEq] at h
          rw [← h]
          exact hf
      | cons lf rest =>
          simp only [find_conflict_zone_recursive] at h
          split at h
          · exact ih st t rest st' h hf
          · split at h
            · split at h
              · exact absurd h (by simp)
              · rename_i stm heq
                refine ih stm t rest st' h ?_
                refine ih _ _ _ _ heq ?_
                exact add_tet_to_list_first_ne st.M _ st.first st.last hf
            · exact ih _ t rest st' h hf

lemma add_zero_neighbors_first_ne (ori : OriQuad) (t : ℕ) :
    ∀ (L : List ℕ) (M : Mesh) (first last : Option ℕ),
      first ≠ none → (add_zero_neighbors ori t M first last L).2.1 ≠ none := by
  intro L
  induction L with
  | nil =>
      intro M first last h
      simpa [add_zero_neighbors] using h
  | cons lf rest ih =>
      intro M first last h
      simp only [add_zero_neighbors]
      split
      · exact ih _ _ _ (add_tet_to_list_first_ne M _ first last h)
      · exact ih _ _ _ h

lemma recurse_zero_first_mono (conflict : Mesh → ℕ → Pt3 → Bool) (p : Pt3)
    (fuel : ℕ) (ori : OriQuad) (t : ℕ) :
    ∀ (L : List ℕ) (st st' : FCZState),
      recurse_zero_neighbors conflict p fuel ori t st L = some st' →
      st.first ≠ none → st'.first ≠ none := by
  intro L
  induction L with
  | nil =>
      intro st st' h hf
      simp only [recurse_zero_neighbors, Option.some.injEq] at h
      rw [← h]
      exact hf
  | cons lf rest ih =>
      intro st st' h hf
      simp only [recurse_zero_neighbors] at h
      split at h
      · split at h
        · exact absurd h (by simp)
        · rename_i stm heq
          exact ih stm st' h (fcz_rec_first_mono conflict p fuel st _ _ stm heq hf)
      · exact ih st st' h hf

lemma find_conflict_zone_empty_dup (conflict : Mesh → ℕ → Pt3 → Bool)
    (fuel : ℕ) (M : Mesh) (v t : ℕ) (ori : OriQuad) (h : 3 ≤ nb_zero ori) :
    find_conflict_zone conflict fuel M v t ori =
      some ⟨set_tet_mark_stamp M v, none, none, none⟩ := by
  simp only [find_conflict_zone]
  rw [if_pos h]

lemma find_conflict_zone_empty_weighted (conflict : Mesh → ℕ → Pt3 → Bool)
    (fuel : ℕ) (M : Mesh) (v t : ℕ) (ori : OriQuad)
    (h3 : ¬ 3 ≤ nb_zero ori)
    (hw : ((set_tet_mark_stamp M v).weighted &&
      !conflict (set_tet_mark_stamp M v) t
        ((set_tet_mark_stamp M v).vertex v)) = true) :
    find_conflict_zone conflict fuel M v t ori =
      some ⟨set_tet_mark_stamp M v, none, none, none⟩ := by
  simp only [find_conflict_zone]
  rw [if_neg h3, if_pos hw]

lemma find_conflict_zone_nonempty (conflict : Mesh → ℕ → Pt3 → Bool)
    (fuel : ℕ) (M : Mesh) (v t : ℕ) (ori : OriQuad) (st : FCZState)
    (h3 : ¬ 3 ≤ nb_zero ori)
    (hw : ¬ ((set_tet_mark_stamp M v).weighted &&
      !conflict (set_tet_mark_stamp M v) t
        ((set_tet_mark_stamp M v).vertex v)) = true)
    (h : find_conflict_zone conflict fuel M v t ori = some st) :
    st.first ≠ none := by
  simp only [find_conflict_zone] at h
  rw [if_neg h3, if_neg hw] at h
  have hseed : (add_tet_to_list (set_tet_mark_stamp M v) t none none).2.1 =
      some t := by
    simp [add_tet_to_list]
  split at h
  · split at h
    · exact absurd h (by simp)
    · rename_i st2 heq
      refine fcz_rec_first_mono conflict _ fuel st2 t _ st h ?_
      refine recurse_zero_first_mono conflict _ fuel ori t _ _ st2 heq ?_
      show (add_zero_neighbors ori t _ _ _ [0, 1, 2, 3]).2.1 ≠ none
      refine add_zero_neighbors_first_ne ori t _ _ _ _ ?_
      rw [hseed]
      simp
  · refine fcz_rec_first_mono conflict _ fuel _ t _ st h ?_
    show (add_tet_to_list (set_tet_mark_stamp M v) t none none).2.1 ≠ none
    rw [hseed]
    simp

/-- C4: `insert(v, hint)` returns `NO_TETRAHEDRON` (no hint, here
`res = none`) exactly when the conflict zone is empty, which happens exactly
when the located cell has at least 3 of its 4 orientation signs ZERO
(duplicate point), or, in weighted mode, when the located cell is not in
conflict with `v` (non-visible point, tested on the freshly stamped state);
and in that case the tetrahedron and adjacency stores and the cell count are
not modified. -/
theorem insert_noop_iff :
    ∀ (conflict : Mesh → ℕ → Pt3 → Bool) (M : Mesh) (v : ℕ)
      (hint : Option ℕ) (ori0 : OriQuad) (randH randF : ℕ → ℕ)
      (fa fb fc fd fe ff : ℕ) (t : ℕ) (ori : OriQuad) (res : Option ℕ)
      (M' : Mesh),
      locate M (M.vertex v) hint ori0 randH randF fa fb fc fd = .found t ori →
      insert conflict M v hint ori0 randH randF fa fb fc fd fe ff =
        some (res, M') →
      (res = none ↔
        (3 ≤ nb_zero ori ∨
          ((set_tet_mark_stamp M v).weighted &&
            !conflict (set_tet_mark_stamp M v) t
              ((set_tet_mark_stamp M v).vertex v)) = true)) ∧
      (res = none →
        M'.cell_to_v_store_ = M.cell_to_v_store_ ∧
        M'.cell_to_cell_store_ = M.cell_to_cell_store_ ∧
        M'.cell_next_ = M.cell_next_ ∧ max_t M' = max_t M) := by
  intro conflict M v hint ori0 randH randF fa fb fc fd fe ff t ori res M' h1 h2
  simp only [insert, h1] at h2
  by_cases hcond : (3 ≤ nb_zero ori ∨
      ((set_tet_mark_stamp M v).weighted &&
        !conflict (set_tet_mark_stamp M v) t
          ((set_tet_mark_stamp M v).vertex v)) = true)
  · have hst : find_conflict_zone conflict fe M v t ori =
        some ⟨set_tet_mark_stamp M v, none, none, none⟩ := by
      rcases hcond with hc | hc
      · exact find_conflict_zone_empty_dup conflict fe M v t ori hc
      · by_cases h3 : 3 ≤ nb_zero ori
        · exact find_conflict_zone_empty_dup conflict fe M v t ori h3
        · exact find_conflict_zone_empty_weighted conflict fe M v t ori h3 hc
    rw [hst] at h2
    simp only [Option.some.injEq, Prod.mk.injEq] at h2
    obtain ⟨hres, hM⟩ := h2
    subst hres
    subst hM
    refine ⟨iff_of_true rfl hcond, fun _ => ⟨rfl, rfl, rfl, rfl⟩⟩
  · rcases hcz : find_conflict_zone conflict fe M v t ori with _ | st
    · rw [hcz] at h2
      simp at h2
    · simp only [hcz] at h2
      have hf : st.first ≠ none := by
        refine find_conflict_zone_nonempty conflict fe M v t ori st ?_ ?_ hcz
        · intro hc
          exact hcond (Or.inl hc)
        · intro hc
          exact hcond (Or.inr hc)
      rcases hfs : st.first with _ | f1
      · exact absurd hfs hf
      · simp only [hfs] at h2
        rcases hls : st.last with _ | l1
        · simp only [hls] at h2
          simp at h2
        · simp only [hls] at h2
          rcases hbs : st.bndry with _ | b
          · simp only [hbs] at h2
            simp at h2
          · simp only [hbs] at h2
            rcases hstl : stellate_conflict_zone v ff st.M b.1 b.2 (-1)
              with _ | s
            · simp only [hstl] at h2
              simp at h2
            · simp only [hstl] at h2
              simp only [Option.some.injEq, Prod.mk.injEq] at h2
              obtain ⟨hres, _⟩ := h2
              constructor
              · constructor
                · intro hr
                  rw [hr] at hres
                  exact absurd hres (by simp)
                · intro hc
                  exact absurd hc hcond
              · intro hr
                rw [hr] at hres
                exact absurd hres (by simp)

/-- C4 witness: inserting the duplicate 5th sample point (equal to vertex 0)
into the 5-cell sample mesh returns no hint, with all stores untouched. -/
theorem insert_noop_iff_witness :
    (c4_insert_result.1 = none ↔
      (3 ≤ nb_zero ⟨.positive, .zero, .zero, .zero⟩ ∨
        ((set_tet_mark_stamp sample_mesh5d 4).weighted &&
          !(fun _ _ _ => false) (set_tet_mark_stamp sample_mesh5d 4) 0
            ((set_tet_mark_stamp sample_mesh5d 4).vertex 4)) = true)) ∧
    (c4_insert_result.1 = none →
      c4_insert_result.2.cell_to_v_store_ = sample_mesh5d.cell_to_v_store_ ∧
      c4_insert_result.2.cell_to_cell_store_ = sample_mesh5d.cell_to_cell_store_ ∧
      c4_insert_result.2.cell_next_ = sample_mesh5d.cell_next_ ∧
      max_t c4_insert_result.2 = max_t sample_mesh5d) :=
  insert_noop_iff (fun _ _ _ => false) sample_mesh5d 4 (some 0)
    ⟨.zero, .zero, .zero, .zero⟩ (fun _ => 0) (fun _ => 0) 5 5 5 5 20 20 0
    ⟨.positive, .zero, .zero, .zero⟩ c4_insert_result.1 c4_insert_result.2
    (by rfl) (by rfl)

lemma sign_eq_of_beq_zero (s : Sign) (h : (s == Sign.zero) = true) :
    s = Sign.zero := by
  cases s
  · exact absurd h (by decide)
  · rfl
  · exact absurd h (by decide)

lemma adj_literal_facts (M0 : Mesh)
    (hadj : M0.cell_to_cell_store_ =
      #[Int.ofNat 1, Int.ofNat 2, Int.ofNat 3, Int.ofNat 4,
        Int.ofNat 0, Int.ofNat 4, Int.ofNat 3, Int.ofNat 2,
        Int.ofNat 0, Int.ofNat 3, Int.ofNat 4, Int.ofNat 1,
        Int.ofNat 0, Int.ofNat 2, Int.ofNat 1, Int.ofNat 4,
        Int.ofNat 0, Int.ofNat 3, Int.ofNat 1, Int.ofNat 2]) :
    ∀ t, t < 5 → ∀ fc, fc < 4 →
      tet_adjacent M0 t fc ≠ Int.ofNat t ∧
      0 ≤ tet_adjacent M0 t fc ∧ (tet_adjacent M0 t fc).toNat < 5 ∧
      ∃ g, g < 4 ∧
        tet_adjacent M0 (tet_adjacent M0 t fc).toNat g = Int.ofNat t := by
  intro t ht fc hfc
  simp only [tet_adjacent, hadj]
  interval_cases t <;> interval_cases fc <;> decide

/-- C5 (amended): `create_first_tetrahedron` scans the vertex array in
ORIGINAL index order — not the reordered sequence the spec describes, see the
counterexample.  Starting from vertex 0 it takes the first vertex not
identical to it, then the first subsequent vertex not collinear with those
two, then the first subsequent vertex not coplanar with those three; if the
orientation of that quadruple is NEGATIVE, the last two indices are swapped;
the created cell has POSITIVE orientation.  The result is exactly 1 finite
cell (cell 0) plus 4 virtual cells: each virtual cell carries the infinite
vertex in slot 0 and one triangular face of the finite cell in reversed
order, and the adjacency over the 5 cells is total, irreflexive and
symmetric. -/
theorem create_first_tetrahedron_spec (M M' : Mesh) (i0 i1 i2 i3 : ℕ)
    (hv : M.cell_to_v_store_ = #[]) (hc : M.cell_to_cell_store_ = #[])
    (hn : M.cell_next_ = #[]) (hm : M.marks = #[])
    (hf : M.first_free_ = .endOfList)
    (h : create_first_tetrahedron M = some (M', i0, i1, i2, i3)) :
    (i0 = 0 ∧ 1 ≤ i1 ∧ i1 < M.nb_vertices ∧
      (∀ k, 1 ≤ k → k < i1 →
        points_are_identical (M.vertex 0) (M.vertex k) = true) ∧
      points_are_identical (M.vertex 0) (M.vertex i1) = false ∧
      ∃ j2 j3 : ℕ,
        i1 < j2 ∧ j2 < M.nb_vertices ∧
        (∀ k, i1 < k → k < j2 →
          points_are_colinear (M.vertex 0) (M.vertex i1) (M.vertex k) = true) ∧
        points_are_colinear (M.vertex 0) (M.vertex i1) (M.vertex j2) = false ∧
        j2 < j3 ∧ j3 < M.nb_vertices ∧
        (∀ k, j2 < k → k < j3 →
          orient_3d (M.vertex 0) (M.vertex i1) (M.vertex j2) (M.vertex k) =
            Sign.zero) ∧
        orient_3d (M.vertex 0) (M.vertex i1) (M.vertex j2) (M.vertex j3) ≠
          Sign.zero ∧
        ((orient_3d (M.vertex 0) (M.vertex i1) (M.vertex j2) (M.vertex j3) =
            Sign.positive ∧ i2 = j2 ∧ i3 = j3) ∨
         (orient_3d (M.vertex 0) (M.vertex i1) (M.vertex j2) (M.vertex j3) =
            Sign.negative ∧ i2 = j3 ∧ i3 = j2))) ∧
    orient_3d (M.vertex i0) (M.vertex i1) (M.vertex i2) (M.vertex i3) =
      Sign.positive ∧
    max_t M' = 5 ∧
    tet_is_real M' 0 = true ∧
    tet_vertex M' 0 0 = Int.ofNat i0 ∧ tet_vertex M' 0 1 = Int.ofNat i1 ∧
    tet_vertex M' 0 2 = Int.ofNat i2 ∧ tet_vertex M' 0 3 = Int.ofNat i3 ∧
    (∀ f, f < 4 →
      tet_is_virtual M' (f + 1) = true ∧
      tet_vertex M' (f + 1) 0 = -1 ∧
      tet_vertex M' (f + 1) 1 = tet_vertex M' 0 (tet_facet_vertex f 2) ∧
      tet_vertex M' (f + 1) 2 = tet_vertex M' 0 (tet_facet_vertex f 1) ∧
      tet_vertex M' (f + 1) 3 = tet_vertex M' 0 (tet_facet_vertex f 0)) ∧
    (∀ t, t < 5 → ∀ fc, fc < 4 →
      tet_adjacent M' t fc ≠ Int.ofNat t ∧
      0 ≤ tet_adjacent M' t fc ∧ (tet_adjacent M' t fc).toNat < 5 ∧
      ∃ g, g < 4 ∧
        tet_adjacent M' (tet_adjacent M' t fc).toNat g = Int.ofNat t) := by
  simp only [create_first_tetrahedron] at h
  split at h
  · exact Option.noConfusion h
  · rename_i h4
    split at h
    · exact Option.noConfusion h
    · rename_i hA
      split at h
      · exact Option.noConfusion h
      · rename_i hB
        split at h
        · exact Option.noConfusion h
        · rename_i hC
          simp only [Option.some.injEq, Prod.mk.injEq] at h
          obtain ⟨hM', hi0, hi1, hi2, hi3⟩ := h
          subst hi0
          subst hi1
          subst hi2
          subst hi3
          subst hM'
          set S1 : ℕ := scan_non_identical M 0 1 with hS1def
          set S2 : ℕ := scan_non_colinear M 0 S1 (S1 + 1) with hS2def
          set S3 : ℕ := scan_non_coplanar M 0 S1 S2 (S2 + 1) with hS3def
          obtain ⟨a1, b1, c1, d1⟩ :=
            scan_first_spec M.nb_vertices
              (fun k => points_are_identical (M.vertex 0) (M.vertex k))
              M.nb_vertices 1 (by omega) (by omega)
          rw [show scan_first M.nb_vertices
              (fun k => points_are_identical (M.vertex 0) (M.vertex k))
              M.nb_vertices 1 = S1 from rfl] at a1 b1 c1 d1
          have hS1lt : S1 < M.nb_vertices := by omega
          obtain ⟨a2, b2, c2, d2⟩ :=
            scan_first_spec M.nb_vertices
              (fun k =>
                points_are_colinear (M.vertex 0) (M.vertex S1) (M.vertex k))
              M.nb_vertices (S1 + 1) (by omega) (by omega)
          rw [show scan_first M.nb_vertices
              (fun k =>
                points_are_colinear (M.vertex 0) (M.vertex S1) (M.vertex k))
              M.nb_vertices (S1 + 1) = S2 from rfl] at a2 b2 c2 d2
          have hS2lt : S2 < M.nb_vertices := by omega
          obtain ⟨a3, b3, c3, d3⟩ :=
            scan_first_spec M.nb_vertices
              (fun k =>
                orient_3d (M.vertex 0) (M.vertex S1) (M.vertex S2)
                  (M.vertex k) == Sign.zero)
              M.nb_vertices (S2 + 1) (by omega) (by omega)
          rw [show scan_first M.nb_vertices
              (fun k =>
                orient_3d (M.vertex 0) (M.vertex S1) (M.vertex S2)
                  (M.vertex k) == Sign.zero)
              M.nb_vertices (S2 + 1) = S3 from rfl] at a3 b3 c3 d3
          have hS3lt : S3 < M.nb_vertices := by omega
          have hzf := d3 hS3lt
          have hne : orient_3d (M.vertex 0) (M.vertex S1) (M.vertex S2)
              (M.vertex S3) ≠ Sign.zero := by
            intro hcon
            rw [hcon] at hzf
            exact absurd hzf (by decide)
          have hcop : ∀ k, S2 < k → k < S3 →
              orient_3d (M.vertex 0) (M.vertex S1) (M.vertex S2)
                (M.vertex k) = Sign.zero := by
            intro k hk1 hk2
            exact sign_eq_of_beq_zero _ (c3 k (by omega) hk2)
          rw [build_first_cells_eq M 0 S1 _ _ hv hc hn hm hf]
          refine ⟨⟨rfl, a1, hS1lt, c1, d1 hS1lt, S2, S3, by omega, hS2lt,
            fun k hk1 hk2 => c2 k (by omega) hk2, d2 hS2lt, by omega, hS3lt,
            hcop, hne, ?_⟩, ?_, rfl, rfl, rfl, rfl, rfl, rfl, ?_, ?_⟩
          · cases hsgn : orient_3d (M.vertex 0) (M.vertex S1) (M.vertex S2)
                (M.vertex S3)
            · exact Or.inr ⟨rfl, rfl, rfl⟩
            · exact absurd hsgn hne
            · exact Or.inl ⟨rfl, rfl, rfl⟩
          · cases hsgn : orient_3d (M.vertex 0) (M.vertex S1) (M.vertex S2)
                (M.vertex S3)
            · exact orient_3d_swap23_pos hsgn
            · exact absurd hsgn hne
            · exact hsgn
          · intro f hlt
            interval_cases f
            · exact ⟨rfl, rfl, rfl, rfl, rfl⟩
            · exact ⟨rfl, rfl, rfl, rfl, rfl⟩
            · exact ⟨rfl, rfl, rfl, rfl, rfl⟩
            · exact ⟨rfl, rfl, rfl, rfl, rfl⟩
          · exact adj_literal_facts _ rfl

/-- C5 witness: on the four sample points in general position the quadruple
`(0, 1, 2, 3)` is selected as-is and the orientation of the created cell is
positive. -/
theorem create_first_tetrahedron_spec_witness :
    sample_mesh4.cell_to_v_store_ = #[] ∧
    create_first_tetrahedron sample_mesh4 = some (sample_mesh5, 0, 1, 2, 3) ∧
    orient_3d (sample_mesh4.vertex 0) (sample_mesh4.vertex 1)
      (sample_mesh4.vertex 2) (sample_mesh4.vertex 3) = Sign.positive ∧
    max_t sample_mesh5 = 5 :=
  ⟨rfl, rfl,
    (create_first_tetrahedron_spec sample_mesh4 sample_mesh5 0 1 2 3
      rfl rfl rfl rfl rfl rfl).2.1,
    (create_first_tetrahedron_spec sample_mesh4 sample_mesh5 0 1 2 3
      rfl rfl rfl rfl rfl rfl).2.2.1⟩

/-- C5 counterexample to the "scanning the reordered vertex sequence"
wording: `create_first_tetrahedron` takes no reorder argument and scans
original vertex indices.  On five points in general position with the
reversal permutation `[4,3,2,1,0]`, the code selects the quadruple
`(0, 1, 2, 3)` while a scan of the reordered sequence (the spec's words,
`spec_reordered_first_quadruple`) selects `(4, 3, 1, 2)` — a different
vertex set. -/
theorem first_tetra_scan_ignores_reorder :
    Option.map (fun r => r.2) (create_first_tetrahedron cex_mesh) =
      some (0, 1, 2, 3) ∧
    spec_reordered_first_quadruple cex_mesh #[4, 3, 2, 1, 0] =
      some (4, 3, 1, 2) ∧
    Option.map (fun r => r.2) (create_first_tetrahedron cex_mesh) ≠
      spec_reordered_first_quadruple cex_mesh #[4, 3, 2, 1, 0] := by
  refine ⟨rfl, rfl, ?_⟩
  intro hcon
  rw [show Option.map (fun r => r.2) (create_first_tetrahedron cex_mesh) =
        some ((0, 1, 2, 3) : ℕ × ℕ × ℕ × ℕ) from rfl,
      show spec_reordered_first_quadruple cex_mesh #[4, 3, 2, 1, 0] =
        some ((4, 3, 1, 2) : ℕ × ℕ × ℕ × ℕ) from rfl] at hcon
  exact absurd hcon (by decide)

/-- C6 (amended): on degenerate input (all points identical, collinear or
coplanar — `create_first_tetrahedron` fails) and with no abort from the
progress callback, `set_vertices` terminates returning `some (true, ·)`:
the prepared state with the cell stores cleared and the finalized output
arrays untouched.  The boolean is `true` — the same value as a successful
build — so it does NOT report the degenerate outcome; `false` signals only
a progress-callback abort. -/
theorem set_vertices_degenerate_outcome (conflict : Mesh → ℕ → Pt3 → Bool)
    (fuel : ℕ) (M : Mesh) (reorder : Array ℕ) (randH randF : ℕ → ℕ)
    (hdeg : create_first_tetrahedron (set_vertices_prepare M) = none) :
    set_vertices conflict fuel M reorder none randH randF =
      some (true, set_vertices_prepare M) ∧
    (set_vertices_prepare M).out_ncells = M.out_ncells ∧
    (set_vertices_prepare M).out_cellV = M.out_cellV ∧
    (set_vertices_prepare M).out_cellAdj = M.out_cellAdj ∧
    max_t (set_vertices_prepare M) = 0 := by
  refine ⟨?_, ?_, ?_, ?_, ?_⟩
  · simp [set_vertices, cb_ok, hdeg]
  · cases hw : M.weighted <;> simp [set_vertices_prepare, hw]
  · cases hw : M.weighted <;> simp [set_vertices_prepare, hw]
  · cases hw : M.weighted <;> simp [set_vertices_prepare, hw]
  · cases hw : M.weighted <;> simp [set_vertices_prepare, max_t, hw]

/-- C6 witness: over the four collinear points, `set_vertices` (identity
reorder, no callback) returns `true` with the prepared, cell-free state. -/
theorem set_vertices_degenerate_outcome_witness :
    create_first_tetrahedron (set_vertices_prepare line_mesh4) = none ∧
    set_vertices (fun _ _ _ => false) 50 line_mesh4 #[0, 1, 2, 3] none
      (fun _ => 0) (fun _ => 0) =
      some (true, set_vertices_prepare line_mesh4) :=
  ⟨rfl,
    (set_vertices_degenerate_outcome (fun _ _ _ => false) 50 line_mesh4
      #[0, 1, 2, 3] (fun _ => 0) (fun _ => 0) rfl).1⟩

/-- C6 counterexample to "reports the degenerate outcome via its boolean
return value": the boolean is `true` both on a degenerate (collinear) input,
which publishes zero tetrahedra, and on a good input publishing one finite
tetrahedron — the caller cannot distinguish the two from the return value. -/
theorem set_vertices_bool_not_degenerate :
    Option.map (fun r => (r.1, r.2.out_ncells))
      (set_vertices (fun _ _ _ => false) 50 line_mesh4 #[0, 1, 2, 3] none
        (fun _ => 0) (fun _ => 0)) = some (true, 0) ∧
    Option.map (fun r => (r.1, r.2.out_ncells))
      (set_vertices (fun _ _ _ => false) 50 sample_mesh4 #[0, 1, 2, 3] none
        (fun _ => 0) (fun _ => 0)) = some (true, 1) :=
  ⟨rfl, rfl⟩

end Delaunay3d
